import Mathlib

/-
  Verification development for the Orderly MCP documentation query service.

  The definitions below are shallow embeddings of the TypeScript source:
  the paginated fuzzy-search layer of `src/resources/index.ts`
  (searchWithPagination, parseResourceUri, formatSearchResults, getResource),
  the per-domain tool facades (`src/tools/contracts.ts`, `src/tools/workflows.ts`,
  `src/tools/componentGuides.ts`, `src/tools/sdkPatterns.ts`,
  `src/tools/pythonSdk.ts`, `src/tools/searchDocs.ts`).

  The external fuse.js match engine is an npm dependency, not repository code;
  wherever the source calls `fuse.search(query)` the embedding takes the ranked,
  score-ascending result list that call would return as an explicit argument
  (`fuseOut`), and the `limit` option of `fuse.search` is modelled by
  `List.take`, which is exactly what that option does to the sorted result list.
  Scores are rationals (fuse scores are floats in [0,1]; every comparison in
  the repository is against the constants 0.6 and 0.7, which are exact).
-/

namespace OrderlyMcp

/-! String helpers.

The JavaScript string primitives used by the source (`trim`, `toLowerCase`,
`toUpperCase`, `includes`, `replace(/[-_]/g, '')`, `charAt(0).toUpperCase() +
slice(1)`) are embedded as executable functions over the character list of a
`String`.  Lowering/uppering is the ASCII case map (every string these
operations are applied to in the repository is ASCII). -/

/-- ASCII lower-casing of one character (JS `toLowerCase` on ASCII input). -/
def lowerChar (c : Char) : Char :=
  if 65 ≤ c.toNat ∧ c.toNat ≤ 90 then Char.ofNat (c.toNat + 32) else c

/-- ASCII upper-casing of one character (JS `toUpperCase` on ASCII input). -/
def upperChar (c : Char) : Char :=
  if 97 ≤ c.toNat ∧ c.toNat ≤ 122 then Char.ofNat (c.toNat - 32) else c

/-- JS `s.toLowerCase()`. -/
def jsToLower (s : String) : String := ⟨s.data.map lowerChar⟩

/-- JS `s.toUpperCase()`. -/
def jsToUpper (s : String) : String := ⟨s.data.map upperChar⟩

/-- JS `s.trim()`: strip leading and trailing whitespace. -/
def jsTrim (s : String) : String :=
  ⟨((s.data.dropWhile Char.isWhitespace).reverse.dropWhile Char.isWhitespace).reverse⟩

/-- JS `s.replace(/[-_]/g, '')`: delete every hyphen and underscore. -/
def stripDashUnderscore (s : String) : String :=
  ⟨s.data.filter (fun c => !(c == '-' || c == '_'))⟩

/-- Does `pre` occur at the head of `l`? -/
def leadsWith (pre l : List Char) : Bool :=
  match pre, l with
  | [], _ => true
  | a :: t, b :: u => a == b && leadsWith t u
  | _ :: _, [] => false

/-- Does `needle` occur contiguously anywhere in `hay`? -/
def hasSeq (needle : List Char) : List Char → Bool
  | [] => needle.isEmpty
  | b :: u => leadsWith needle (b :: u) || hasSeq needle u

/-- JS `s.includes(sub)`. -/
def jsIncludes (s sub : String) : Bool := hasSeq sub.data s.data

/-- JS `s.charAt(0).toUpperCase() + s.slice(1)`. -/
def capFirst (s : String) : String :=
  match s.data with
  | [] => s
  | c :: t => ⟨upperChar c :: t⟩

/-- A scored fuse.js search result: `{ item, score }` with `includeScore: true`. -/
structure Scored (α : Type) where
  item : α
  score : ℚ
deriving DecidableEq

/-- The result shape of `searchWithPagination` in `src/resources/index.ts`. -/
structure SearchResult (α : Type) where
  items : List α
  total : ℕ
  page : ℕ
  totalPages : ℕ
  hasMore : Bool
deriving DecidableEq

/-- `const DEFAULT_LIMIT = 10` in `src/resources/index.ts`. -/
def DEFAULT_LIMIT : ℕ := 10

/-- `const MAX_LIMIT = 10` in `src/resources/index.ts`. -/
def MAX_LIMIT : ℕ := 10

/-- `Math.ceil (a / b)` for natural `a` and positive natural `b`. -/
def ceilDiv (a b : ℕ) : ℕ := (a + b - 1) / b

/-- The quality threshold used by `searchWithPagination` and
`searchOrderlyDocs`: results with `score < 0.7` are kept. -/
def threshold07 : ℚ := ⟨7, 10, by norm_num, by norm_num⟩

/-- The stricter quality threshold used by `explainWorkflow` and
`getComponentGuide`: results with `score < 0.6` are kept. -/
def threshold06 : ℚ := ⟨3, 5, by norm_num, by norm_num⟩

/-- The quality filter of `searchWithPagination`:
`searchResults.filter((result) => (result.score ?? 1) < 0.7)`. -/
def fuseQuality {α : Type} (l : List (Scored α)) : List (Scored α) :=
  l.filter (fun r => r.score < threshold07)

/-- Shallow embedding of `searchWithPagination` from `src/resources/index.ts`.
`fuseOut` is the full ranked result list of `fuse.search(query.trim())`; the
source calls it with the option `{ limit: effectiveLimit * page }`, which
truncates that list, embedded as `List.take (effectiveLimit * page)`. -/
def searchWithPagination {α : Type} (fuseOut : List (Scored α))
    (query : String) (page limit : ℕ) : SearchResult α :=
  let effectiveLimit := min limit MAX_LIMIT
  if (jsTrim query).length = 0 then
    ⟨[], 0, 1, 0, false⟩
  else
    let searchResults := fuseOut.take (effectiveLimit * page)
    let qualityResults := fuseQuality searchResults
    let total := qualityResults.length
    let totalPages := ceilDiv total effectiveLimit
    let startIndex := (page - 1) * effectiveLimit
    let items := ((qualityResults.drop startIndex).take effectiveLimit).map Scored.item
    ⟨items, total, page, totalPages, decide (page < totalPages)⟩

/-- Ranked fuse output is sorted by ascending score (`shouldSort: true`). -/
def SortedByScore {α : Type} (l : List (Scored α)) : Prop :=
  l.Pairwise (fun a b => a.score ≤ b.score)

/-! Lemmas about the search core. -/

lemma string_length_eq_zero_iff {s : String} : s.length = 0 ↔ s = "" := by
  cases s with
  | mk data =>
    constructor
    · intro h
      have hd : data = [] := by simpa [String.length] using h
      rw [hd]
    · intro h
      rw [h]
      rfl

lemma filter_take_of_antitone {β : Type} (p : β → Bool) (le : β → β → Prop)
    (hmono : ∀ a b, le a b → p b = true → p a = true) :
    ∀ (l : List β), l.Pairwise le → ∀ n, (l.take n).filter p = (l.filter p).take n := by
  intro l
  induction l with
  | nil => intro _ n; simp
  | cons a t ih =>
    intro hp n
    rcases List.pairwise_cons.1 hp with ⟨ha, ht⟩
    cases n with
    | zero => simp
    | succ m =>
      by_cases hpa : p a = true
      · simp [List.take_succ_cons, List.filter_cons, hpa, ih ht m]
      · have hnone : ∀ b ∈ t, ¬ p b = true := fun b hb hpb => hpa (hmono a b (ha b hb) hpb)
        have ht0 : t.filter p = [] :=
          List.filter_eq_nil_iff.2 (fun b hb => by simpa using hnone b hb)
        have ht1 : (t.take m).filter p = [] :=
          List.filter_eq_nil_iff.2 (fun b hb => by simpa using hnone b (List.mem_of_mem_take hb))
        simp [List.take_succ_cons, List.filter_cons, hpa, ht0, ht1]

lemma fuseQuality_take {α : Type} (l : List (Scored α)) (hs : SortedByScore l) (n : ℕ) :
    fuseQuality (l.take n) = (fuseQuality l).take n :=
  filter_take_of_antitone _ _
    (fun a b hab hb => by
      simp only [decide_eq_true_eq] at hb ⊢
      exact lt_of_le_of_lt hab hb)
    l hs n

lemma ceilDiv_le_iff_le_mul' {a L c : ℕ} (hL : 0 < L) : ceilDiv a L ≤ c ↔ a ≤ L * c := by
  have h : ceilDiv a L = a ⌈/⌉ L := rfl
  rw [h]
  exact ceilDiv_le_iff_le_mul hL

lemma le_mul_ceilDiv' {n L : ℕ} (hL : 0 < L) : n ≤ L * ceilDiv n L :=
  (ceilDiv_le_iff_le_mul' hL).1 le_rfl

lemma range_bind_drop_take {β : Type} (xs : List β) (L : ℕ) :
    ∀ P, (List.range P).flatMap (fun i => (xs.drop (i * L)).take L) = xs.take (P * L) := by
  intro P
  induction P with
  | zero => simp
  | succ P ih =>
    rw [List.range_succ, List.flatMap_append, ih, Nat.succ_mul, List.take_add]
    simp

lemma searchWithPagination_eq_of_ne {α : Type} (fuseOut : List (Scored α))
    (query : String) (page limit : ℕ) (hq : jsTrim query ≠ "") :
    searchWithPagination fuseOut query page limit =
      ⟨(((fuseQuality (fuseOut.take (min limit MAX_LIMIT * page))).drop
            ((page - 1) * min limit MAX_LIMIT)).take (min limit MAX_LIMIT)).map Scored.item,
        (fuseQuality (fuseOut.take (min limit MAX_LIMIT * page))).length,
        page,
        ceilDiv (fuseQuality (fuseOut.take (min limit MAX_LIMIT * page))).length
          (min limit MAX_LIMIT),
        decide (page <
          ceilDiv (fuseQuality (fuseOut.take (min limit MAX_LIMIT * page))).length
            (min limit MAX_LIMIT))⟩ := by
  have h : ¬ (jsTrim query).length = 0 := by simpa [string_length_eq_zero_iff] using hq
  simp [searchWithPagination, h]

lemma searchWithPagination_items_eq {α : Type} (fuseOut : List (Scored α))
    (query : String) (page limit : ℕ)
    (hs : SortedByScore fuseOut) (hp : 1 ≤ page) (hc : limit ≤ 10)
    (hq : jsTrim query ≠ "") :
    (searchWithPagination fuseOut query page limit).items
      = (((fuseQuality fuseOut).drop ((page - 1) * limit)).take limit).map Scored.item := by
  have hmin : min limit MAX_LIMIT = limit := by
    simp only [MAX_LIMIT]
    omega
  obtain ⟨p', rfl⟩ : ∃ p', page = p' + 1 := ⟨page - 1, by omega⟩
  rw [searchWithPagination_eq_of_ne _ _ _ _ hq]
  simp only [hmin, Nat.add_sub_cancel]
  rw [fuseQuality_take _ hs, List.drop_take, Nat.mul_succ, Nat.mul_comm p' limit,
    Nat.add_sub_cancel_left, List.take_take, Nat.min_self]

/-- C1: for every corpus (fuse result list) and all page and limit arguments,
`searchWithPagination` called with an empty or whitespace-only query returns
`{items: [], total: 0, page: 1, totalPages: 0, hasMore: false}`, independently
of the result list (no record is scored). -/
theorem searchWithPagination_empty_query {α : Type} (fuseOut : List (Scored α))
    (query : String) (page limit : ℕ) (h : jsTrim query = "") :
    searchWithPagination fuseOut query page limit = ⟨[], 0, 1, 0, false⟩ := by
  simp [searchWithPagination, h]

/-- C1 witness: the whitespace-only query `"   "` at page 3 with limit 7. -/
theorem searchWithPagination_empty_query_witness :
    jsTrim "   " = "" ∧
      searchWithPagination [⟨(1 : ℕ), (0 : ℚ)⟩] "   " 3 7 = ⟨[], 0, 1, 0, false⟩ :=
  ⟨by decide, searchWithPagination_empty_query _ _ _ _ (by decide)⟩

/-- Eleven distinct quality candidates, all with score 0. -/
def elevenQuality : List (Scored ℕ) := (List.range 11).map (fun i => ⟨i, 0⟩)

/-- C2 counterexample: with 11 quality candidates, page 1 and limit 10, the
reported `total` is 10, not the count (11) of all quality-filtered candidates,
because `fuse.search` is called with `limit: effectiveLimit * page` and the
quality filter runs on that truncated list. -/
theorem searchWithPagination_total_counterexample :
    (searchWithPagination elevenQuality "x" 1 10).total = 10 ∧
      (fuseQuality elevenQuality).length = 11 ∧
      (searchWithPagination elevenQuality "x" 1 10).total ≠
        (fuseQuality elevenQuality).length := by decide

/-- C2 (amended): for a score-sorted fuse result list, a non-empty query,
`page ≥ 1` and `1 ≤ limit ≤ 10`: `items` is the slice of the full sorted
quality-filtered candidate list from `(page-1)*limit` to `page*limit`;
`total` is the count of quality-filtered candidates among the first
`limit*page` raw matches, i.e. `min (limit*page) Q` where `Q` is the full
quality count (not `Q` itself); `totalPages = ceil(total / limit)` for that
truncated total; `hasMore` is always `false`; and concatenating `items`
across pages `1..ceil(Q/limit)` reproduces exactly the full quality-filtered,
sorted candidate list with no duplicates and no omissions. -/
theorem searchWithPagination_pagination {α : Type} (fuseOut : List (Scored α))
    (query : String) (page limit : ℕ)
    (hs : SortedByScore fuseOut) (hp : 1 ≤ page) (hl : 1 ≤ limit) (hc : limit ≤ 10)
    (hq : jsTrim query ≠ "") :
    (searchWithPagination fuseOut query page limit).items
        = (((fuseQuality fuseOut).drop ((page - 1) * limit)).take limit).map Scored.item
    ∧ (searchWithPagination fuseOut query page limit).total
        = min (limit * page) (fuseQuality fuseOut).length
    ∧ (searchWithPagination fuseOut query page limit).totalPages
        = ceilDiv (min (limit * page) (fuseQuality fuseOut).length) limit
    ∧ (searchWithPagination fuseOut query page limit).hasMore = false
    ∧ (List.range (ceilDiv (fuseQuality fuseOut).length limit)).flatMap
        (fun i => (searchWithPagination fuseOut query (i + 1) limit).items)
        = (fuseQuality fuseOut).map Scored.item := by
  have hmin : min limit MAX_LIMIT = limit := by
    simp only [MAX_LIMIT]
    omega
  have htotal : (searchWithPagination fuseOut query page limit).total
      = min (limit * page) (fuseQuality fuseOut).length := by
    rw [searchWithPagination_eq_of_ne _ _ _ _ hq]
    simp only [hmin]
    rw [fuseQuality_take _ hs, List.length_take]
  refine ⟨searchWithPagination_items_eq fuseOut query page limit hs hp hc hq, htotal, ?_, ?_, ?_⟩
  · rw [searchWithPagination_eq_of_ne _ _ _ _ hq]
    simp only [hmin]
    rw [fuseQuality_take _ hs, List.length_take]
  · have hle : ceilDiv (min (limit * page) (fuseQuality fuseOut).length) limit ≤ page :=
      (ceilDiv_le_iff_le_mul' hl).2 (le_trans (Nat.min_le_left _ _) (by rw [Nat.mul_comm]))
    rw [searchWithPagination_eq_of_ne _ _ _ _ hq]
    simp only [hmin]
    rw [fuseQuality_take _ hs, List.length_take]
    simpa [decide_eq_false_iff_not, Nat.not_lt] using hle
  · have hitems : ∀ i : ℕ,
        (searchWithPagination fuseOut query (i + 1) limit).items
          = (((fuseQuality fuseOut).drop (i * limit)).take limit).map Scored.item := by
      intro i
      have h := searchWithPagination_items_eq fuseOut query (i + 1) limit hs (by omega) hc hq
      simpa using h
    calc (List.range (ceilDiv (fuseQuality fuseOut).length limit)).flatMap
          (fun i => (searchWithPagination fuseOut query (i + 1) limit).items)
        = (List.range (ceilDiv (fuseQuality fuseOut).length limit)).flatMap
            (fun i => (((fuseQuality fuseOut).drop (i * limit)).take limit).map Scored.item) := by
          simp only [hitems]
      _ = ((List.range (ceilDiv (fuseQuality fuseOut).length limit)).flatMap
            (fun i => ((fuseQuality fuseOut).drop (i * limit)).take limit)).map Scored.item := by
          rw [List.map_flatMap]
      _ = ((fuseQuality fuseOut).take
            (ceilDiv (fuseQuality fuseOut).length limit * limit)).map Scored.item := by
          rw [range_bind_drop_take]
      _ = (fuseQuality fuseOut).map Scored.item := by
          rw [List.take_of_length_le]
          rw [Nat.mul_comm]
          exact le_mul_ceilDiv' hl

/-- C2 witness: two sorted candidates, one below and one above the quality
threshold, queried at page 1 with limit 2. -/
theorem searchWithPagination_pagination_witness :
    SortedByScore [(⟨1, 0⟩ : Scored ℕ), ⟨2, 1⟩] ∧ jsTrim "q" ≠ "" ∧
      (searchWithPagination [(⟨1, 0⟩ : Scored ℕ), ⟨2, 1⟩] "q" 1 2).total
        = min (2 * 1) (fuseQuality [(⟨1, 0⟩ : Scored ℕ), ⟨2, 1⟩]).length :=
  ⟨by constructor <;> simp, by decide,
    (searchWithPagination_pagination [(⟨1, 0⟩ : Scored ℕ), ⟨2, 1⟩] "q" 1 2
        (by constructor <;> simp) (by decide) (by decide) (by decide) (by decide)).2.1⟩

/-! Embedding of `src/tools/contracts.ts`.

`contracts.json` is a JSON object mapping chain names to chain data; a JS
object is embedded as an insertion-ordered association list.  Every tool
facade returns `{ content: [{ type: 'text', text }] }`; the constant
`type: 'text'` tag is elided. -/

/-- One `{ type: 'text', text }` content entry. -/
structure TextContent where
  text : String
deriving DecidableEq

/-- The `{ content: [...] }` result shape shared by all tool facades. -/
structure ToolResult where
  content : List TextContent
deriving DecidableEq

/-- `ContractInfo` from `src/tools/contracts.ts`. -/
structure ContractInfo where
  mainnet : Option String
  testnet : Option String
  description : Option String
deriving DecidableEq

/-- `ChainContracts` from `src/tools/contracts.ts`. -/
structure ChainContracts where
  chainId : ℕ
  testnetChainId : Option ℕ
  contracts : List (String × ContractInfo)
deriving DecidableEq

/-- The parsed `contracts.json` corpus. -/
abbrev ContractData := List (String × ChainContracts)

/-- JS object property access `obj[key]` over an association-list embedding. -/
def assocFind {β : Type} (m : List (String × β)) (k : String) : Option β :=
  (m.find? (fun kv => kv.1 == k)).map (·.2)

/-- Chain resolution: `contractData[chain.toLowerCase().trim()]`. -/
def resolveChain (data : ContractData) (chain : String) : Option ChainContracts :=
  assocFind data (jsTrim (jsToLower chain))

/-- The validation-error message for an invalid `network` argument. -/
def invalidNetworkText (network : String) : String :=
  "Invalid network: " ++ network ++ ". Must be \x27mainnet\x27 or \x27testnet\x27."

/-- The not-found message listing all valid chain names. -/
def chainNotFoundText (data : ContractData) (chain : String) : String :=
  "Chain \"" ++ chain ++ "\" not found. Available chains: " ++
    String.intercalate ", " (data.map (·.1))

/-- `**Chain ID:** ...` value: the mainnet id, or `testnetChainId || 'N/A'`. -/
def chainIdText (cd : ChainContracts) (normalizedNetwork : String) : String :=
  if normalizedNetwork == "mainnet" then toString cd.chainId
  else
    match cd.testnetChainId with
    | some i => if i == 0 then "N/A" else toString i
    | none => "N/A"

/-- The address of a contract on the requested network:
`normalizedNetwork === 'mainnet' ? info.mainnet : info.testnet`. -/
def netAddress (info : ContractInfo) (normalizedNetwork : String) : Option String :=
  if normalizedNetwork == "mainnet" then info.mainnet else info.testnet

/-- One `### name` block of the `all` listing. -/
def contractEntryBlock (name : String) (info : ContractInfo) (address : String) : String :=
  "### " ++ name ++ "\n" ++
    (match info.description with
     | some d => d ++ "\n\n"
     | none => "") ++
    "**Address:** `" ++ address ++ "`\n\n"

/-- One iteration of the `for (const [name, info] of Object.entries(contracts))`
loop: append the entry block when the requested network has an address. -/
def allContractsStep (normalizedNetwork : String) (acc : String)
    (kv : String × ContractInfo) : String :=
  match netAddress kv.2 normalizedNetwork with
  | some a => acc ++ contractEntryBlock kv.1 kv.2 a
  | none => acc

/-- The body of the `contractType = 'all'` listing. -/
def allContractsBody (contracts : List (String × ContractInfo))
    (normalizedNetwork : String) : String :=
  contracts.foldl (allContractsStep normalizedNetwork) ""

/-- The three-step specific-contract lookup:
`contracts[type.toUpperCase()] || contracts[type] || contracts[keys.find(lowercase match) || '']`. -/
def assocFindContract (contracts : List (String × ContractInfo))
    (contractType normalizedContractType : String) : Option ContractInfo :=
  ((assocFind contracts (jsToUpper contractType)).orElse (fun _ =>
    assocFind contracts contractType)).orElse (fun _ =>
      assocFind contracts
        (match contracts.find? (fun kv => jsToLower kv.1 == normalizedContractType) with
         | some kv => kv.1
         | none => ""))

/-- The body rendered for one specifically requested contract. -/
def specificContractBody (contract : ContractInfo)
    (contractType network normalizedNetwork : String) : String :=
  "## " ++ jsToUpper contractType ++ "\n\n" ++
    (match contract.description with
     | some d => d ++ "\n\n"
     | none => "") ++
    (match netAddress contract normalizedNetwork with
     | some a => "**" ++ network ++ " Address:** `" ++ a ++ "`\n\n"
     | none => "**" ++ network ++ " Address:** Not available\n\n") ++
    (if contract.mainnet.isSome && contract.testnet.isSome then
      "### Other Networks\n" ++
        (if normalizedNetwork == "mainnet" then
          (match contract.testnet with
           | some t => "- **Testnet:** `" ++ t ++ "`\n"
           | none => "")
         else if normalizedNetwork == "testnet" then
          (match contract.mainnet with
           | some m => "- **Mainnet:** `" ++ m ++ "`\n"
           | none => "")
         else "")
     else "")

/-- Shallow embedding of `getContractAddresses` from `src/tools/contracts.ts`. -/
def getContractAddresses (data : ContractData)
    (chain contractType network : String) : ToolResult :=
  let normalizedContractType := jsTrim (jsToLower contractType)
  let normalizedNetwork := jsTrim (jsToLower network)
  if !(normalizedNetwork == "mainnet" || normalizedNetwork == "testnet") then
    ⟨[⟨invalidNetworkText network⟩]⟩
  else
    match resolveChain data chain with
    | none => ⟨[⟨chainNotFoundText data chain⟩]⟩
    | some chainData =>
      let header := "# " ++ capFirst chain ++ " Contract Addresses\n\n" ++
        "**Chain ID:** " ++ chainIdText chainData normalizedNetwork ++ "\n\n"
      if normalizedContractType == "all" then
        ⟨[⟨header ++ "## All Contracts (" ++ network ++ ")\n\n" ++
            allContractsBody chainData.contracts normalizedNetwork⟩]⟩
      else
        match assocFindContract chainData.contracts contractType normalizedContractType with
        | none =>
          ⟨[⟨"Contract type \"" ++ contractType ++ "\" not found on " ++ chain ++
              ". Available types: " ++
              String.intercalate ", " (chainData.contracts.map (·.1))⟩]⟩
        | some contract =>
          ⟨[⟨header ++ specificContractBody contract contractType network normalizedNetwork⟩]⟩

/-- A small well-formed corpus used by the concrete theorems below. -/
def bscVault : ContractInfo := ⟨some "0xVaultMain", none, some "Main vault"⟩

/-- A one-chain corpus whose only chain key is `bsc`. -/
def sampleData : ContractData := [("bsc", ⟨56, some 97, [("VAULT", bscVault)]⟩)]

/-- C6: for every corpus and every chain and contract-key argument, when the
lowercased, trimmed network argument is neither "mainnet" nor "testnet",
`getContractAddresses` returns the validation-error message; the corpus is
universally quantified and never consulted, so no chain or contract lookup
is performed. -/
theorem getContractAddresses_invalid_network (data : ContractData)
    (chain contractType network : String)
    (h1 : jsTrim (jsToLower network) ≠ "mainnet")
    (h2 : jsTrim (jsToLower network) ≠ "testnet") :
    getContractAddresses data chain contractType network
      = ⟨[⟨invalidNetworkText network⟩]⟩ := by
  have h : (jsTrim (jsToLower network) == "mainnet"
      || jsTrim (jsToLower network) == "testnet") = false := by
    simp [h1, h2]
  simp [getContractAddresses, h]

/-- C6 witness: the invalid network "devnet". -/
theorem getContractAddresses_invalid_network_witness :
    getContractAddresses sampleData "bsc" "all" "devnet"
      = ⟨[⟨invalidNetworkText "devnet"⟩]⟩ :=
  getContractAddresses_invalid_network sampleData "bsc" "all" "devnet"
    (by decide) (by decide)

/-- C7 counterexample: with a corpus containing a `bsc` chain entry, the chain
argument "bnb" is not aliased to it — `getContractAddresses` returns the
chain-not-found message listing the valid chains instead of the `bsc` data. -/
theorem getContractAddresses_no_alias_counterexample :
    (assocFind sampleData "bsc").isSome = true ∧
      getContractAddresses sampleData "bnb" "all" "mainnet"
        = ⟨[⟨"Chain \"bnb\" not found. Available chains: bsc"⟩]⟩ := by decide

/-- C7 (amended): chain resolution lowercases and trims the argument and then
does exact key lookup, so any two spellings of a chain name with the same
normalization resolve identically (case-insensitive resolution); there is no
alias table, and whenever the normalized name is not a key of the corpus the
operation returns the "not found" message listing all valid chain names. -/
theorem getContractAddresses_chain_resolution (data : ContractData)
    (chain1 chain2 contractType network : String)
    (hnet : jsTrim (jsToLower network) = "mainnet" ∨ jsTrim (jsToLower network) = "testnet")
    (heq : jsTrim (jsToLower chain1) = jsTrim (jsToLower chain2)) :
    resolveChain data chain1 = resolveChain data chain2
    ∧ (resolveChain data chain1 = none →
        getContractAddresses data chain1 contractType network
          = ⟨[⟨chainNotFoundText data chain1⟩]⟩) := by
  constructor
  · unfold resolveChain
    rw [heq]
  · intro hnone
    have h : (jsTrim (jsToLower network) == "mainnet"
        || jsTrim (jsToLower network) == "testnet") = true := by
      rcases hnet with h | h <;> simp [h]
    simp [getContractAddresses, h, hnone]

/-- C7 witness: ` Arbitrum ` and `arbitrum` resolve identically, and an
absent chain yields the not-found message listing the valid chains. -/
theorem getContractAddresses_chain_resolution_witness :
    resolveChain sampleData " Arbitrum " = resolveChain sampleData "arbitrum"
    ∧ getContractAddresses sampleData " Arbitrum " "all" "mainnet"
        = ⟨[⟨chainNotFoundText sampleData " Arbitrum "⟩]⟩ := by
  have h := getContractAddresses_chain_resolution sampleData " Arbitrum " "arbitrum"
    "all" "mainnet" (Or.inl (by decide)) (by decide)
  exact ⟨h.1, h.2 (by decide)⟩

lemma string_foldl_append (l : List String) :
    ∀ b : String, l.foldl (fun r s => r ++ s) b = b ++ l.foldl (fun r s => r ++ s) "" := by
  induction l with
  | nil => intro b; simp
  | cons s t ih =>
    intro b
    rw [List.foldl_cons, ih (b ++ s), List.foldl_cons, ih ("" ++ s)]
    have h1 : ("" : String) ++ s = s := rfl
    rw [h1, String.append_assoc]

lemma allContractsBody_foldl_join (normalizedNetwork : String) :
    ∀ (contracts : List (String × ContractInfo)) (acc : String),
      contracts.foldl (allContractsStep normalizedNetwork) acc
        = acc ++ String.join
            ((contracts.filter (fun kv => (netAddress kv.2 normalizedNetwork).isSome)).map
              (fun kv => contractEntryBlock kv.1 kv.2
                ((netAddress kv.2 normalizedNetwork).getD ""))) := by
  intro contracts
  induction contracts with
  | nil => intro acc; simp [String.join]
  | cons kv t ih =>
    intro acc
    cases h : netAddress kv.2 normalizedNetwork with
    | none => simp [List.foldl_cons, allContractsStep, h, List.filter_cons, ih]
    | some a =>
      simp only [List.foldl_cons, allContractsStep, h, List.filter_cons, Option.isSome_some,
        if_true, List.map_cons, String.join, ih, Option.getD_some]
      have h2 : ("" : String) ++ contractEntryBlock kv.1 kv.2 a
          = contractEntryBlock kv.1 kv.2 a := rfl
      rw [h2, string_foldl_append
        ((t.filter (fun kv => (netAddress kv.2 normalizedNetwork).isSome)).map
          (fun kv => contractEntryBlock kv.1 kv.2 ((netAddress kv.2 normalizedNetwork).getD "")))
        (contractEntryBlock kv.1 kv.2 a),
        String.append_assoc]

/-- C8: addresses are never substituted across networks.  (i) In `all` mode the
rendered body is exactly the concatenation of the entry blocks of those
contracts that have an address for the requested network — every contract
lacking one is omitted.  (ii) A specifically requested contract whose mainnet
address exists but whose testnet address is absent renders, for
`network = "testnet"`, the closed-form text below, whose address line is
`Not available` and which omits the Other Networks section — the mainnet
address does not occur anywhere in it. -/
theorem getContractAddresses_no_cross_network (data : ContractData)
    (contracts : List (String × ContractInfo)) (chain contractType : String)
    (cd : ChainContracts) (info : ContractInfo) (a : String) :
    (∀ normalizedNetwork, allContractsBody contracts normalizedNetwork
        = String.join
            ((contracts.filter (fun kv => (netAddress kv.2 normalizedNetwork).isSome)).map
              (fun kv => contractEntryBlock kv.1 kv.2
                ((netAddress kv.2 normalizedNetwork).getD ""))))
    ∧ (resolveChain data chain = some cd
        → assocFindContract cd.contracts contractType (jsTrim (jsToLower contractType))
            = some info
        → info.mainnet = some a → info.testnet = none
        → jsTrim (jsToLower contractType) ≠ "all"
        → getContractAddresses data chain contractType "testnet"
            = ⟨[⟨"# " ++ capFirst chain ++ " Contract Addresses\n\n" ++ "**Chain ID:** "
                ++ chainIdText cd "testnet" ++ "\n\n"
                ++ ("## " ++ jsToUpper contractType ++ "\n\n"
                    ++ (match info.description with | some d => d ++ "\n\n" | none => "")
                    ++ "**testnet Address:** Not available\n\n")⟩]⟩) := by
  constructor
  · intro normalizedNetwork
    simpa using allContractsBody_foldl_join normalizedNetwork contracts ""
  · intro hchain hcontract hm ht hall
    have hnet : jsTrim (jsToLower "testnet") = "testnet" := by decide
    have hvalid : (jsTrim (jsToLower "testnet") == "mainnet"
        || jsTrim (jsToLower "testnet") == "testnet") = true := by decide
    have hall' : (jsTrim (jsToLower contractType) == "all") = false := by
      simpa using hall
    simp only [getContractAddresses, hnet, hvalid, Bool.not_true, Bool.false_eq_true,
      if_false, hchain, hall', if_true, hcontract]
    have hbody : specificContractBody info contractType "testnet" "testnet"
        = "## " ++ jsToUpper contractType ++ "\n\n"
          ++ (match info.description with | some d => d ++ "\n\n" | none => "")
          ++ "**testnet Address:** Not available\n\n" := by
      simp [specificContractBody, netAddress, hm, ht]
    rw [hbody]
    simp

/-- C8 witness: the sample corpus's `VAULT` contract has a mainnet address and
no testnet address; in `all` mode with network `testnet` the listing body is
empty, and the specific lookup reports `Not available`. -/
theorem getContractAddresses_no_cross_network_witness :
    allContractsBody [("VAULT", bscVault)] "testnet"
      = String.join
          (([("VAULT", bscVault)].filter
              (fun kv => (netAddress kv.2 "testnet").isSome)).map
            (fun kv => contractEntryBlock kv.1 kv.2 ((netAddress kv.2 "testnet").getD "")))
    ∧ getContractAddresses sampleData "bsc" "VAULT" "testnet"
        = ⟨[⟨"# " ++ capFirst "bsc" ++ " Contract Addresses\n\n" ++ "**Chain ID:** "
            ++ chainIdText ⟨56, some 97, [("VAULT", bscVault)]⟩ "testnet" ++ "\n\n"
            ++ ("## " ++ jsToUpper "VAULT" ++ "\n\n"
                ++ (match bscVault.description with | some d => d ++ "\n\n" | none => "")
                ++ "**testnet Address:** Not available\n\n")⟩]⟩ := by
  have h := getContractAddresses_no_cross_network sampleData [("VAULT", bscVault)]
    "bsc" "VAULT" ⟨56, some 97, [("VAULT", bscVault)]⟩ bscVault "0xVaultMain"
  exact ⟨h.1 "testnet", h.2 (by decide) (by decide) (by decide) (by decide) (by decide)⟩

/-! Embedding of `src/tools/workflows.ts`. -/

/-- `WorkflowStep` from `src/tools/workflows.ts`; the optional `important`
array is a list (absent = empty). -/
structure WorkflowStep where
  title : String
  description : String
  code : Option String
  important : List String
deriving DecidableEq

/-- `Workflow` from `src/tools/workflows.ts`. -/
structure Workflow where
  name : String
  description : String
  prerequisites : List String
  steps : List WorkflowStep
  commonIssues : List String
  relatedWorkflows : List String
deriving DecidableEq

/-- `list.map(x => `- ${x}`).join('\n')`. -/
def bulletLines (l : List String) : String :=
  String.intercalate "\n" (l.map (fun x => "- " ++ x))

/-- The quality candidates of `explainWorkflow`:
`fuse.search(q, {limit: 5})` filtered by `score < 0.6`. -/
def workflowQuality (fuseOut : List (Scored Workflow)) : List (Scored Workflow) :=
  (fuseOut.take 5).filter (fun r => r.score < threshold06)

/-- The exact-match predicate of `explainWorkflow`:
`r.item.name.toLowerCase().replace(/[-_]/g, '') === normalizedWorkflow.replace(/[-_]/g, '')`. -/
def workflowExactPred (normalizedWorkflow : String) (r : Scored Workflow) : Bool :=
  stripDashUnderscore (jsToLower r.item.name) == stripDashUnderscore normalizedWorkflow

/-- The not-found message of `explainWorkflow`. -/
def workflowNotFoundText (allWorkflows : List Workflow) (workflow : String) : String :=
  "Workflow \"" ++ workflow ++ "\" not found.\n\nAvailable workflows: " ++
    String.intercalate ", " (allWorkflows.map (·.name))

/-- One numbered step of the rendered workflow. -/
def workflowStepBlock (idx : ℕ) (step : WorkflowStep) : String :=
  toString (idx + 1) ++ ". **" ++ step.title ++ "**\n\n" ++ step.description ++ "\n\n" ++
    (match step.code with
     | some c => "```typescript\n" ++ c ++ "\n```\n\n"
     | none => "") ++
    (if step.important.length > 0 then
      "> **Important:** " ++ String.intercalate " " step.important ++ "\n\n"
     else "")

/-- The full single-workflow rendering of `explainWorkflow`. -/
def renderWorkflow (m : Workflow) : String :=
  "# " ++ m.name ++ "\n\n" ++ m.description ++ "\n\n" ++
    (if m.prerequisites.length > 0 then
      "## Prerequisites\n\n" ++ bulletLines m.prerequisites ++ "\n\n"
     else "") ++
    "## Steps\n\n" ++
    (m.steps.enum.foldl (fun acc is => acc ++ workflowStepBlock is.1 is.2) "") ++
    (if m.commonIssues.length > 0 then
      "## Common Issues\n\n" ++ bulletLines m.commonIssues ++ "\n\n"
     else "") ++
    (if m.relatedWorkflows.length > 0 then
      "## Related Workflows\n\n" ++ bulletLines m.relatedWorkflows ++ "\n"
     else "")

/-- Shallow embedding of `explainWorkflow` from `src/tools/workflows.ts`.
`fuseOut` is the ranked output of `fuse.search(normalizedWorkflow)`;
the `{limit: 5}` option is the `take 5` inside `workflowQuality`. -/
def explainWorkflow (allWorkflows : List Workflow) (fuseOut : List (Scored Workflow))
    (workflow : String) : ToolResult :=
  let normalizedWorkflow := jsTrim (jsToLower workflow)
  if normalizedWorkflow == "" then
    ⟨[⟨"Please provide a workflow name to search for."⟩]⟩
  else
    match workflowQuality fuseOut with
    | [] => ⟨[⟨workflowNotFoundText allWorkflows workflow⟩]⟩
    | q0 :: _ =>
      match (workflowQuality fuseOut).find? (workflowExactPred normalizedWorkflow) with
      | some r => ⟨[⟨renderWorkflow r.item⟩]⟩
      | none => ⟨[⟨renderWorkflow q0.item⟩]⟩

/-! Embedding of `src/tools/componentGuides.ts`. -/

/-- `ComponentVariant` from `src/tools/componentGuides.ts`. -/
structure ComponentVariant where
  complexity : String
  description : String
  code : String
  additionalImports : List String
  tips : List String
deriving DecidableEq

/-- `ComponentGuide` from `src/tools/componentGuides.ts`. -/
structure ComponentGuide where
  name : String
  description : String
  requiredPackages : List String
  keyHooks : List String
  variants : List ComponentVariant
  stylingNotes : Option String
  commonMistakes : List String
  relatedComponents : List String
deriving DecidableEq

/-- The quality candidates of `getComponentGuide`:
`fuse.search(q, {limit: 5})` filtered by `score < 0.6`. -/
def componentQuality (fuseOut : List (Scored ComponentGuide)) : List (Scored ComponentGuide) :=
  (fuseOut.take 5).filter (fun r => r.score < threshold06)

/-- The exact-match predicate of `getComponentGuide`. -/
def componentExactPred (normalizedComponent : String) (r : Scored ComponentGuide) : Bool :=
  stripDashUnderscore (jsToLower r.item.name) == stripDashUnderscore normalizedComponent

/-- The record `getComponentGuide` renders:
the exact-normalized-name quality match if present, else the top quality
match; `none` when there is no quality match. -/
def componentSelected (fuseOut : List (Scored ComponentGuide))
    (normalizedComponent : String) : Option ComponentGuide :=
  match componentQuality fuseOut with
  | [] => none
  | q0 :: _ =>
    match (componentQuality fuseOut).find? (componentExactPred normalizedComponent) with
    | some r => some r.item
    | none => some q0.item

/-- The variant selection of `getComponentGuide`:
requested complexity, else `'standard'`, else the first variant.  `none`
models the uncaught TypeError the source hits when `variants` is empty. -/
def chooseVariant (m : ComponentGuide) (normalizedComplexity : String) :
    Option ComponentVariant :=
  ((m.variants.find? (fun v => v.complexity == normalizedComplexity)).orElse (fun _ =>
    m.variants.find? (fun v => v.complexity == "standard"))).orElse (fun _ =>
      m.variants.head?)

/-- The not-found message of `getComponentGuide`. -/
def componentNotFoundText (allComponents : List ComponentGuide) (component : String) : String :=
  "Component \"" ++ component ++ "\" not found.\n\nAvailable components: " ++
    String.intercalate ", " (allComponents.map (·.name))

/-- The full single-component rendering of `getComponentGuide`. -/
def renderComponentGuide (m : ComponentGuide) (variant : ComponentVariant) : String :=
  "# Building a " ++ m.name ++ "\n\n" ++ m.description ++ "\n\n" ++
    "## Required Packages\n\n```bash\nnpm install " ++
    String.intercalate " " m.requiredPackages ++ "\n```\n\n" ++
    "## Key Hooks\n\n" ++
    (m.keyHooks.foldl (fun acc h => acc ++ "- `" ++ h ++ "`\n") "") ++ "\n" ++
    "## " ++ capFirst variant.complexity ++ " Implementation\n\n" ++
    variant.description ++ "\n\n" ++
    (if variant.additionalImports.length > 0 then
      "### Additional Imports\n\n```typescript\n" ++
        String.intercalate "\n" variant.additionalImports ++ "\n```\n\n"
     else "") ++
    "### Code Example\n\n```tsx\n" ++ variant.code ++ "\n```\n\n" ++
    (if variant.tips.length > 0 then
      "### Implementation Tips\n\n" ++ bulletLines variant.tips ++ "\n\n"
     else "") ++
    (match m.stylingNotes with
     | some s => "## Styling Notes\n\n" ++ s ++ "\n\n"
     | none => "") ++
    (if m.commonMistakes.length > 0 then
      "## Common Mistakes to Avoid\n\n" ++ bulletLines m.commonMistakes ++ "\n\n"
     else "") ++
    (if m.relatedComponents.length > 0 then
      "## Related Components\n\n" ++ bulletLines m.relatedComponents ++ "\n"
     else "")

/-- Shallow embedding of `getComponentGuide` from `src/tools/componentGuides.ts`;
`none` models the uncaught TypeError on a guide with no variants. -/
def getComponentGuide (allComponents : List ComponentGuide)
    (fuseOut : List (Scored ComponentGuide)) (component complexity : String) :
    Option ToolResult :=
  let normalizedComponent := jsTrim (jsToLower component)
  let normalizedComplexity := jsTrim (jsToLower complexity)
  if normalizedComponent == "" then
    some ⟨[⟨"Please provide a component name to search for."⟩]⟩
  else
    match componentSelected fuseOut normalizedComponent with
    | none => some ⟨[⟨componentNotFoundText allComponents component⟩]⟩
    | some m =>
      match chooseVariant m normalizedComplexity with
      | none => none
      | some variant => some ⟨[⟨renderComponentGuide m variant⟩]⟩

/-! Embedding of `src/tools/sdkPatterns.ts`.  This facade is substring-based,
not fuzzy: no fuse.js call is involved. -/

/-- One SDK pattern record of `sdk-patterns.json`. -/
structure SdkPattern where
  name : String
  description : String
  installation : Option String
  usage : String
  exampleCode : Option String
  notes : List String
  related : List String
deriving DecidableEq

/-- One category of `sdk-patterns.json`. -/
structure SdkCategory where
  name : String
  patterns : List SdkPattern
deriving DecidableEq

/-- A matched pattern with its category name merged in (`{...p, category}`). -/
structure SdkMatch where
  name : String
  description : String
  installation : Option String
  usage : String
  exampleCode : Option String
  notes : List String
  related : List String
  category : String
deriving DecidableEq

/-- `{...p, category: categoryName}`. -/
def toSdkMatch (p : SdkPattern) (categoryName : String) : SdkMatch :=
  ⟨p.name, p.description, p.installation, p.usage, p.exampleCode, p.notes, p.related, categoryName⟩

/-- The match condition of `getSdkPattern`: mutual substring containment of
the normalized names, or the lowercased description containing the query. -/
def sdkMatchCond (normalizedPattern : String) (p : SdkPattern) : Bool :=
  let normalizedName := stripDashUnderscore (jsToLower p.name)
  jsIncludes normalizedName normalizedPattern
    || jsIncludes normalizedPattern normalizedName
    || jsIncludes (jsToLower p.description) normalizedPattern

/-- The (corpus-ordered) match list gathered by `getSdkPattern`. -/
def sdkMatches (cats : List SdkCategory) (normalizedPattern : String) : List SdkMatch :=
  cats.flatMap (fun c =>
    (c.patterns.filter (sdkMatchCond normalizedPattern)).map (fun p => toSdkMatch p c.name))

/-- `getAvailablePatterns()` from `src/tools/sdkPatterns.ts`. -/
def getAvailablePatterns (cats : List SdkCategory) : String :=
  String.intercalate "\n"
    (cats.flatMap (fun c => c.patterns.map (fun p => p.name ++ " (" ++ c.name ++ ")")))

/-- The multiple-match disambiguation list of `getSdkPattern`. -/
def sdkMultiText (pattern : String) (matchList : List SdkMatch) : String :=
  "Multiple patterns found for \"" ++ pattern ++ "\":\n\n" ++
    String.intercalate "\n"
      (matchList.map (fun m => "- **" ++ m.name ++ "** (" ++ m.category ++ "): " ++ m.description)) ++
    "\n\nPlease specify a specific pattern name."

/-- The single-pattern rendering of `getSdkPattern`. -/
def renderSdk (m : SdkMatch) (includeExample : Bool) : String :=
  "# " ++ m.name ++ "\n\n**Category:** " ++ m.category ++ "\n\n" ++ m.description ++ "\n\n" ++
    (match m.installation with
     | some i => "## Installation\n\n" ++ i ++ "\n\n"
     | none => "") ++
    "## Usage\n\n" ++ m.usage ++ "\n\n" ++
    (if includeExample then
      (match m.exampleCode with
       | some e => "## Example\n\n" ++ e ++ "\n\n"
       | none => "")
     else "") ++
    (if m.notes.length > 0 then
      "## Important Notes\n\n" ++ bulletLines m.notes ++ "\n\n"
     else "") ++
    (if m.related.length > 0 then
      "## Related Patterns\n\n" ++ bulletLines m.related ++ "\n"
     else "")

/-- Shallow embedding of `getSdkPattern` from `src/tools/sdkPatterns.ts`.
Note the exact-match comparisons use plain `toLowerCase()` equality, without
the hyphen/underscore stripping used when gathering matches. -/
def getSdkPattern (cats : List SdkCategory) (pattern : String)
    (includeExample : Bool) : ToolResult :=
  let normalizedPattern := stripDashUnderscore (jsToLower pattern)
  match sdkMatches cats normalizedPattern with
  | [] =>
    ⟨[⟨"No SDK pattern found for \"" ++ pattern ++ "\".\n\nAvailable patterns:\n" ++
        getAvailablePatterns cats⟩]⟩
  | m0 :: rest =>
    if (m0 :: rest).length > 1
        && !((m0 :: rest).any (fun m => jsToLower m.name == jsToLower pattern)) then
      ⟨[⟨sdkMultiText pattern (m0 :: rest)⟩]⟩
    else
      match (m0 :: rest).find? (fun m => jsToLower m.name == jsToLower pattern) with
      | some m => ⟨[⟨renderSdk m includeExample⟩]⟩
      | none => ⟨[⟨renderSdk m0 includeExample⟩]⟩

/-! Embedding of `src/tools/pythonSdk.ts`. -/

/-- One indexed Python SDK pattern (after `getAllPatterns()` merged the
category name and normalized null note/related entries away). -/
structure PyPattern where
  name : String
  description : String
  category : String
  installation : Option String
  usage : String
  exampleCode : Option String
  notes : List String
  related : List String
deriving DecidableEq

/-- The not-found message of `getPythonSdkPattern`. -/
def pyNotFoundText (allPatterns : List PyPattern) (pattern : String) : String :=
  "No Python SDK pattern found for \"" ++ pattern ++ "\".\n\nAvailable patterns:\n" ++
    String.intercalate "\n"
      (allPatterns.map (fun p => "- " ++ p.name ++ " (" ++ p.category ++ "): " ++ p.description)) ++
    "\n\nInstall: pip install agent-trading-sdk\nDocs: github.com/arthur-orderly/agent-trading-sdk"

/-- The rendering of the top fuse result of `getPythonSdkPattern`, with the
`See Also` tail built from the remaining results. -/
def renderPy (m : PyPattern) (rest : List (Scored PyPattern)) (includeExample : Bool) : String :=
  "# Python SDK: " ++ m.name ++ "\n" ++ "Category: " ++ m.category ++ "\n\n" ++
    m.description ++ "\n\n" ++
    (match m.installation with
     | some i => "## Installation\n```bash\n" ++ i ++ "\n```\n\n"
     | none => "") ++
    "## Usage\n" ++ m.usage ++ "\n\n" ++
    (if includeExample then
      (match m.exampleCode with
       | some e => "## Example\n```python\n" ++ e ++ "\n```\n\n"
       | none => "")
     else "") ++
    (if m.notes.length > 0 then
      "## Notes\n" ++ bulletLines m.notes ++ "\n\n"
     else "") ++
    (if m.related.length > 0 then
      "## Related\n" ++ bulletLines m.related ++ "\n"
     else "") ++
    (if rest.length > 0 then
      "\n## See Also\n" ++
        String.intercalate "\n"
          ((rest.take 3).map (fun r => "- " ++ r.item.name ++ ": " ++ r.item.description)) ++ "\n"
     else "")

/-- Shallow embedding of `getPythonSdkPattern` from `src/tools/pythonSdk.ts`.
`fuseOut` is the ranked output of `fuse.search(pattern)`; no quality filter
is applied to it. -/
def getPythonSdkPattern (allPatterns : List PyPattern) (fuseOut : List (Scored PyPattern))
    (pattern : String) (includeExample : Bool) : ToolResult :=
  match fuseOut with
  | [] => ⟨[⟨pyNotFoundText allPatterns pattern⟩]⟩
  | r :: rest => ⟨[⟨renderPy r.item rest includeExample⟩]⟩

/-! Embedding of `src/tools/searchDocs.ts`. -/

/-- One documentation chunk of `documentation.json`. -/
structure DocChunk where
  id : String
  title : String
  content : String
  category : String
  keywords : List String
deriving DecidableEq

/-- The quality-filtered raw results of `searchOrderlyDocs`:
`fuse.search(q, {limit: limit * 2})` filtered by `score < 0.7`. -/
def docsQuality (fuseOut : List (Scored DocChunk)) (limit : ℕ) : List (Scored DocChunk) :=
  (fuseOut.take (limit * 2)).filter (fun r => r.score < threshold07)

/-- `topResults = qualityResults.slice(0, limit)`. -/
def docsTopResults (fuseOut : List (Scored DocChunk)) (limit : ℕ) : List (Scored DocChunk) :=
  (docsQuality fuseOut limit).take limit

/-- First-occurrence deduplication, as JS `[...new Set(l)]`. -/
def firstDedupAux (seen : List String) : List String → List String
  | [] => []
  | a :: t => if seen.contains a then firstDedupAux seen t else a :: firstDedupAux (a :: seen) t

/-- JS `[...new Set(l)]`. -/
def firstDedup (l : List String) : List String := firstDedupAux [] l

/-- The no-results guidance of `searchOrderlyDocs`, listing the corpus
categories. -/
def docsNoResultsText (data : List DocChunk) (query : String) : String :=
  "No results found for \"" ++ query ++ "\".\n\nTry searching for:\n" ++
    "- SDK hooks (e.g., \"useOrderEntry\", \"usePositionStream\")\n" ++
    "- Protocol concepts (e.g., \"vault\", \"leverage\", \"funding rate\")\n" ++
    "- Available categories: " ++
    String.intercalate ", " (firstDedup (data.map (·.category))) ++ "\n\n" ++
    "Or use specific tools like:\n" ++
    "- \"get_sdk_pattern\" for hook examples\n" ++
    "- \"explain_workflow\" for step-by-step guides"

/-- One half. -/
def half : ℚ := ⟨1, 2, by norm_num, by norm_num⟩

/-- JS `Math.round` on the nonnegative scores at hand: `⌊q + 1/2⌋`. -/
def jsRound (q : ℚ) : ℤ := (q + half).floor

/-- One numbered result section of the rendered search results. -/
def docsResultBlock (idx : ℕ) (r : Scored DocChunk) : String :=
  "## " ++ toString (idx + 1) ++ ". " ++ r.item.title ++ "\n\n" ++
    "**Category:** " ++ r.item.category ++ " | **Relevance:** " ++
    toString (jsRound ((1 - r.score) * 100)) ++ "%\n\n" ++
    r.item.content ++ "\n\n" ++
    (if r.item.keywords.length > 0 then
      "*Keywords: " ++ String.intercalate ", " r.item.keywords ++ "*\n\n"
     else "") ++
    "---\n\n"

/-- The results text of `searchOrderlyDocs`. -/
def docsResultsText (query normalizedQuery : String)
    (topResults : List (Scored DocChunk)) : String :=
  "# Search Results for \"" ++ query ++ "\"\n\n" ++
    "Found " ++ toString topResults.length ++ " relevant section" ++
    (if topResults.length ≠ 1 then "s" else "") ++ ":\n\n" ++
    (topResults.enum.foldl (fun acc ir => acc ++ docsResultBlock ir.1 ir.2) "") ++
    (if !(topResults.any (fun r => r.item.category == "SDK"))
        && (jsIncludes normalizedQuery "hook" || jsIncludes normalizedQuery "use") then
      "\n**Tip:** For specific SDK hook examples, try using the \"get_sdk_pattern\" tool with the hook name.\n"
     else "")

/-- Shallow embedding of `searchOrderlyDocs` from `src/tools/searchDocs.ts`.
`fuseOut` is the ranked output of `fuse.search(normalizedQuery)`; the
`{limit: limit * 2}` option is the `take (limit * 2)` inside `docsQuality`. -/
def searchOrderlyDocs (data : List DocChunk) (fuseOut : List (Scored DocChunk))
    (query : String) (limit : ℕ) : ToolResult :=
  let normalizedQuery := jsTrim (jsToLower query)
  if normalizedQuery == "" then
    ⟨[⟨"Please provide a search query."⟩]⟩
  else
    match docsTopResults fuseOut limit with
    | [] => ⟨[⟨docsNoResultsText data query⟩]⟩
    | t0 :: trest => ⟨[⟨docsResultsText query normalizedQuery (t0 :: trest)⟩]⟩

/-! Claims about the quality filter (C3), the exact-match override (C4) and
the multiple-match behaviour (C5). -/

/-- A score of 0.9, above the quality threshold. -/
def score09 : ℚ := ⟨9, 10, by norm_num, by norm_num⟩

/-- A score of 0.1, below both quality thresholds. -/
def score01 : ℚ := ⟨1, 10, by norm_num, by norm_num⟩

/-- A score of 0.2, below both quality thresholds. -/
def score02 : ℚ := ⟨1, 5, by norm_num, by norm_num⟩

/-- C3: every candidate kept by the quality filter of `searchWithPagination`
scores strictly below the 0.7 threshold; every item `searchWithPagination`
returns stems from such a candidate; and the `topResults` that
`searchOrderlyDocs` renders all score strictly below the threshold. -/
theorem quality_filter_discards :
    (∀ (α : Type) (l : List (Scored α)) (s : Scored α),
      s ∈ fuseQuality l → s.score < threshold07)
    ∧ (∀ (α : Type) (fuseOut : List (Scored α)) (query : String) (page limit : ℕ)
        (x : α), x ∈ (searchWithPagination fuseOut query page limit).items →
          ∃ s ∈ fuseOut, s.score < threshold07 ∧ s.item = x)
    ∧ (∀ (fuseOut : List (Scored DocChunk)) (limit : ℕ) (s : Scored DocChunk),
        s ∈ docsTopResults fuseOut limit → s.score < threshold07) := by
  refine ⟨?_, ?_, ?_⟩
  · intro α l s hs
    have := List.of_mem_filter hs
    simpa using this
  · intro α fuseOut query page limit x hx
    by_cases hq : (jsTrim query).length = 0
    · simp [searchWithPagination, hq] at hx
    · simp only [searchWithPagination, hq, if_false] at hx
      rcases List.mem_map.1 hx with ⟨s, hs, rfl⟩
      have hs1 : s ∈ fuseQuality (fuseOut.take (min limit MAX_LIMIT * page)) :=
        List.mem_of_mem_drop (List.mem_of_mem_take hs)
      refine ⟨s, ?_, ?_, rfl⟩
      · exact List.mem_of_mem_take (List.mem_filter.1 hs1).1
      · have := List.of_mem_filter hs1
        simpa using this
  · intro fuseOut limit s hs
    have hs1 : s ∈ docsQuality fuseOut limit := List.mem_of_mem_take hs
    have := List.of_mem_filter hs1
    simpa using this

/-- C3 witness: a concrete quality member, a concrete returned item, and a
concrete docs top result, each scoring below the threshold. -/
theorem quality_filter_discards_witness :
    (⟨(3 : ℕ), score01⟩ : Scored ℕ).score < threshold07
    ∧ (∃ s ∈ [(⟨(3 : ℕ), score01⟩ : Scored ℕ)], s.score < threshold07 ∧ s.item = 3)
    ∧ (⟨(⟨"i", "t", "c", "SDK", []⟩ : DocChunk), score01⟩ : Scored DocChunk).score
        < threshold07 := by
  refine ⟨?_, ?_, ?_⟩
  · exact quality_filter_discards.1 ℕ [⟨3, score01⟩] ⟨3, score01⟩ (by decide)
  · exact quality_filter_discards.2.1 ℕ [⟨3, score01⟩] "q" 1 5 3 (by decide)
  · exact quality_filter_discards.2.2 [⟨⟨"i", "t", "c", "SDK", []⟩, score01⟩] 5
      ⟨⟨"i", "t", "c", "SDK", []⟩, score01⟩ (by decide)

/-- A Python SDK pattern used to exhibit the missing quality filter. -/
def badPy : PyPattern := ⟨"bad_pattern", "irrelevant match", "Cat", none, "u", none, [], []⟩

/-- C3 counterexample: `getPythonSdkPattern` applies no quality filter — a
single fuse result with score 0.9 (above the 0.7 threshold) is rendered and
returned as the match, its name leading the returned text. -/
theorem pythonSdk_no_quality_filter_counterexample :
    threshold07 < score09
    ∧ getPythonSdkPattern [] [⟨badPy, score09⟩] "q" true
        = ⟨[⟨renderPy badPy [] true⟩]⟩
    ∧ leadsWith ("# Python SDK: bad_pattern").data
        ((renderPy badPy [] true).data) = true := by decide

/-- C4 (amended): after the quality filter, `explainWorkflow` and
`getComponentGuide` prefer a candidate whose name, lowercased with hyphens
and underscores stripped, equals the equally-normalized query — even over a
better-scored top candidate; `getSdkPattern` instead applies its exact-name
preference only under plain lowercase equality (hyphens and underscores are
significant there). -/
theorem exact_id_override :
    (∀ (allWorkflows : List Workflow) (fuseOut : List (Scored Workflow))
        (workflow : String) (r : Scored Workflow),
      jsTrim (jsToLower workflow) ≠ "" →
      (workflowQuality fuseOut).find? (workflowExactPred (jsTrim (jsToLower workflow)))
          = some r →
        workflowExactPred (jsTrim (jsToLower workflow)) r = true
        ∧ r ∈ workflowQuality fuseOut
        ∧ explainWorkflow allWorkflows fuseOut workflow = ⟨[⟨renderWorkflow r.item⟩]⟩)
    ∧ (∀ (fuseOut : List (Scored ComponentGuide)) (normalizedComponent : String)
          (r : Scored ComponentGuide),
        (componentQuality fuseOut).find? (componentExactPred normalizedComponent) = some r →
          componentExactPred normalizedComponent r = true
          ∧ r ∈ componentQuality fuseOut
          ∧ componentSelected fuseOut normalizedComponent = some r.item)
    ∧ (∀ (cats : List SdkCategory) (pattern : String) (includeExample : Bool) (m : SdkMatch),
        (sdkMatches cats (stripDashUnderscore (jsToLower pattern))).find?
            (fun m => jsToLower m.name == jsToLower pattern) = some m →
          (jsToLower m.name == jsToLower pattern) = true
          ∧ m ∈ sdkMatches cats (stripDashUnderscore (jsToLower pattern))
          ∧ getSdkPattern cats pattern includeExample
              = ⟨[⟨renderSdk m includeExample⟩]⟩) := by
  refine ⟨?_, ?_, ?_⟩
  · intro allWorkflows fuseOut workflow r hne hfind
    have hp := List.find?_some hfind
    have hmem := List.mem_of_find?_eq_some hfind
    refine ⟨hp, hmem, ?_⟩
    have hne' : (jsTrim (jsToLower workflow) == "") = false := by
      simpa using hne
    cases hql : workflowQuality fuseOut with
    | nil => rw [hql] at hmem; simp at hmem
    | cons q0 qs =>
      rw [hql] at hfind
      simp [explainWorkflow, hne', hql, hfind]
  · intro fuseOut normalizedComponent r hfind
    have hp := List.find?_some hfind
    have hmem := List.mem_of_find?_eq_some hfind
    refine ⟨hp, hmem, ?_⟩
    cases hql : componentQuality fuseOut with
    | nil => rw [hql] at hmem; simp at hmem
    | cons q0 qs =>
      rw [hql] at hfind
      simp [componentSelected, hql, hfind]
  · intro cats pattern includeExample m hfind
    have hp := List.find?_some hfind
    have hmem := List.mem_of_find?_eq_some hfind
    refine ⟨hp, hmem, ?_⟩
    cases hml : sdkMatches cats (stripDashUnderscore (jsToLower pattern)) with
    | nil => rw [hml] at hmem; simp at hmem
    | cons m0 rest =>
      rw [hml] at hfind
      have hany : ((m0 :: rest).any (fun m => jsToLower m.name == jsToLower pattern))
          = true := by
        rw [List.any_eq_true]
        rw [hml] at hmem
        exact ⟨m, hmem, hp⟩
      simp [getSdkPattern, hml, hany, hfind]

/-- A workflow whose name does not normalize to the test query. -/
def wfTop : Workflow := ⟨"Order Basics", "d1", [], [], [], []⟩

/-- A workflow whose name normalizes exactly to `useorderentry`. -/
def wfEx : Workflow := ⟨"use_order_entry", "d2", [], [], [], []⟩

/-- A component guide whose name does not normalize to the test query. -/
def cgTop : ComponentGuide := ⟨"OrderBook", "d1", [], [], [], none, [], []⟩

/-- A component guide whose name normalizes exactly to `orderentry`. -/
def cgEx : ComponentGuide := ⟨"order_entry", "d2", [], [], [], none, [], []⟩

/-- An SDK pattern matched and lowercase-equal to the test query. -/
def sdkP3 : SdkPattern := ⟨"buyHelper", "d3", none, "u3", none, [], []⟩

/-- C4 witness: in each facade the exact-normalized candidate sits behind a
better-scored top candidate and is still the one selected (for
`getSdkPattern`, under plain lowercase equality). -/
theorem exact_id_override_witness :
    (workflowExactPred (jsTrim (jsToLower "Use-Order-Entry")) ⟨wfEx, score02⟩ = true
      ∧ (⟨wfEx, score02⟩ : Scored Workflow)
          ∈ workflowQuality [⟨wfTop, score01⟩, ⟨wfEx, score02⟩]
      ∧ explainWorkflow [wfTop, wfEx] [⟨wfTop, score01⟩, ⟨wfEx, score02⟩] "Use-Order-Entry"
          = ⟨[⟨renderWorkflow wfEx⟩]⟩)
    ∧ (componentExactPred "order-entry" ⟨cgEx, score02⟩ = true
      ∧ (⟨cgEx, score02⟩ : Scored ComponentGuide)
          ∈ componentQuality [⟨cgTop, score01⟩, ⟨cgEx, score02⟩]
      ∧ componentSelected [⟨cgTop, score01⟩, ⟨cgEx, score02⟩] "order-entry"
          = some cgEx)
    ∧ ((jsToLower (toSdkMatch sdkP3 "Cat").name == jsToLower "BuyHelper") = true
      ∧ toSdkMatch sdkP3 "Cat"
          ∈ sdkMatches [⟨"Cat", [sdkP3]⟩] (stripDashUnderscore (jsToLower "BuyHelper"))
      ∧ getSdkPattern [⟨"Cat", [sdkP3]⟩] "BuyHelper" true
          = ⟨[⟨renderSdk (toSdkMatch sdkP3 "Cat") true⟩]⟩) :=
  ⟨exact_id_override.1 [wfTop, wfEx] [⟨wfTop, score01⟩, ⟨wfEx, score02⟩] "Use-Order-Entry"
      ⟨wfEx, score02⟩ (by decide) (by decide),
    exact_id_override.2.1 [⟨cgTop, score01⟩, ⟨cgEx, score02⟩] "order-entry"
      ⟨cgEx, score02⟩ (by decide),
    exact_id_override.2.2 [⟨"Cat", [sdkP3]⟩] "BuyHelper" true
      (toSdkMatch sdkP3 "Cat") (by decide)⟩

/-- The SDK pattern whose normalized name equals the normalized test query. -/
def sdkP1 : SdkPattern := ⟨"useOrderEntry", "d1", none, "u1", none, [], []⟩

/-- An SDK pattern matched through its description. -/
def sdkP2 : SdkPattern := ⟨"OrderEntryX", "the useorderentry helper", none, "u2", none, [], []⟩

/-- The one-category corpus for the `getSdkPattern` counterexample. -/
def cexSdkCats : List SdkCategory := [⟨"Cat", [sdkP1, sdkP2]⟩]

set_option maxRecDepth 10000 in
/-- C4 counterexample: for `getSdkPattern`, the query `"use-order-entry"`
normalizes exactly to the id of `useOrderEntry`, which is among the
candidates — yet the disambiguation list is returned, not that record,
because the exact-match check compares plain lowercased names, in which
hyphens are significant. -/
theorem getSdkPattern_exact_norm_counterexample :
    stripDashUnderscore (jsToLower "useOrderEntry")
        = stripDashUnderscore (jsToLower "use-order-entry")
    ∧ toSdkMatch sdkP1 "Cat"
        ∈ sdkMatches cexSdkCats (stripDashUnderscore (jsToLower "use-order-entry"))
    ∧ getSdkPattern cexSdkCats "use-order-entry" true
        = ⟨[⟨sdkMultiText "use-order-entry"
            (sdkMatches cexSdkCats (stripDashUnderscore (jsToLower "use-order-entry")))⟩]⟩
    ∧ getSdkPattern cexSdkCats "use-order-entry" true
        ≠ ⟨[⟨renderSdk (toSdkMatch sdkP1 "Cat") true⟩]⟩ := by decide

/-- A first workflow, ranked best for the ambiguous query. -/
def wfA : Workflow := ⟨"Wallet Connection", "Connect a wallet", [], [], [], []⟩

/-- A second workflow, also a quality match for the ambiguous query. -/
def wfB : Workflow := ⟨"Withdraw Funds", "Withdraw assets", [], [], [], []⟩

/-- Two quality workflow matches, neither an exact-id match. -/
def cexWfOut : List (Scored Workflow) := [⟨wfA, score01⟩, ⟨wfB, score02⟩]

/-- C5 counterexample: `explainWorkflow` with two quality matches and no
exact-id match returns the single top-scored workflow's full rendering — no
disambiguation list is produced. -/
theorem explainWorkflow_no_disambiguation_counterexample :
    (workflowQuality cexWfOut).length = 2
    ∧ (workflowQuality cexWfOut).find? (workflowExactPred (jsTrim (jsToLower "conn"))) = none
    ∧ explainWorkflow [wfA, wfB] cexWfOut "conn" = ⟨[⟨renderWorkflow wfA⟩]⟩ := by decide

/-- C5 (amended): only `getSdkPattern` disambiguates — with more than one
candidate and no lowercase-exact name match it returns the
`Multiple patterns found` list and no single record; `explainWorkflow`
silently returns the top-scored quality candidate when no exact-id match
exists; and `getPythonSdkPattern` always returns the top fuse result as the
single match (with a `See Also` tail), never a disambiguation list. -/
theorem multi_match_behaviour :
    (∀ (cats : List SdkCategory) (pattern : String) (includeExample : Bool)
        (m0 m1 : SdkMatch) (rest : List SdkMatch),
      sdkMatches cats (stripDashUnderscore (jsToLower pattern)) = m0 :: m1 :: rest →
      ((m0 :: m1 :: rest).any (fun m => jsToLower m.name == jsToLower pattern)) = false →
      getSdkPattern cats pattern includeExample
        = ⟨[⟨sdkMultiText pattern (m0 :: m1 :: rest)⟩]⟩)
    ∧ (∀ (allWorkflows : List Workflow) (fuseOut : List (Scored Workflow))
          (workflow : String) (q0 : Scored Workflow) (qrest : List (Scored Workflow)),
        jsTrim (jsToLower workflow) ≠ "" →
        workflowQuality fuseOut = q0 :: qrest →
        (workflowQuality fuseOut).find? (workflowExactPred (jsTrim (jsToLower workflow)))
            = none →
        explainWorkflow allWorkflows fuseOut workflow = ⟨[⟨renderWorkflow q0.item⟩]⟩)
    ∧ (∀ (allPatterns : List PyPattern) (r : Scored PyPattern)
          (rest : List (Scored PyPattern)) (pattern : String) (includeExample : Bool),
        getPythonSdkPattern allPatterns (r :: rest) pattern includeExample
          = ⟨[⟨renderPy r.item rest includeExample⟩]⟩) := by
  refine ⟨?_, ?_, ?_⟩
  · intro cats pattern includeExample m0 m1 rest hml hany
    simp [getSdkPattern, hml, hany]
  · intro allWorkflows fuseOut workflow q0 qrest hne hql hfind
    have hne' : (jsTrim (jsToLower workflow) == "") = false := by
      simpa using hne
    rw [hql] at hfind
    simp [explainWorkflow, hne', hql, hfind]
  · intro allPatterns r rest pattern includeExample
    rfl

/-- A second Python SDK pattern, used as a `See Also` entry. -/
def pyB : PyPattern := ⟨"buy", "Buy perps", "Trading", none, "u", none, [], []⟩

/-- C5 witness: concrete runs of the three facades — `getSdkPattern`
disambiguates, `explainWorkflow` returns the top candidate, and
`getPythonSdkPattern` renders the top fuse result with a See Also tail. -/
theorem multi_match_behaviour_witness :
    getSdkPattern cexSdkCats "orderentry" true
      = ⟨[⟨sdkMultiText "orderentry"
          [toSdkMatch sdkP1 "Cat", toSdkMatch sdkP2 "Cat"]⟩]⟩
    ∧ explainWorkflow [wfA, wfB] cexWfOut "wal" = ⟨[⟨renderWorkflow wfA⟩]⟩
    ∧ getPythonSdkPattern [] [⟨badPy, score01⟩, ⟨pyB, score02⟩] "q" true
        = ⟨[⟨renderPy badPy [⟨pyB, score02⟩] true⟩]⟩ :=
  ⟨multi_match_behaviour.1 cexSdkCats "orderentry" true
      (toSdkMatch sdkP1 "Cat") (toSdkMatch sdkP2 "Cat") [] (by decide) (by decide),
    multi_match_behaviour.2.1 [wfA, wfB] cexWfOut "wal" ⟨wfA, score01⟩ [⟨wfB, score02⟩]
      (by decide) (by decide) (by decide),
    multi_match_behaviour.2.2 [] ⟨badPy, score01⟩ [⟨pyB, score02⟩] "q" true⟩

/-! Embedding of `getResource` from `src/resources/index.ts` (the version with
search support, whose helpers `searchWithPagination`, `parseResourceUri` and
`formatSearchResults` are embedded above).

Each `fs.readFileSync` + `JSON.parse` pair is modelled as an
`Except String` field of a `ResourceStore`: `.error e` is the exception such
a read would throw at call time (missing or unparsable file), which the
function's surrounding try/catch turns into an `Error loading resource`
response.  The WHATWG `URL` parser is an abstract parameter
(`urlParse`), `none` modelling the `new URL(uri)` constructor throwing.
`createFuseSearch` configures the external fuse.js engine; each per-domain
index-plus-search is an abstract field of `FuseEngine` mapping the indexed
items and the query to the ranked result list. -/

/-- One `{ uri, mimeType, text }` entry of a resource response. -/
structure ResourceContent where
  uri : String
  mimeType : String
  text : String
deriving DecidableEq

/-- A `{ contents: [...] }` resource response. -/
structure ResourceResult where
  contents : List ResourceContent
deriving DecidableEq

/-- One hook pattern of `sdk-patterns.json`. -/
structure HookPattern where
  name : String
  description : String
  usage : Option String
deriving DecidableEq

/-- One category of `sdk-patterns.json`. -/
structure HookCategory where
  name : String
  patterns : List HookPattern
deriving DecidableEq

/-- The parsed `sdk-patterns.json` (its `stats` object flattened into the
two counters the code reads). -/
structure SdkPatternsJson where
  totalHooks : ℕ
  totalCategories : ℕ
  categories : List HookCategory
deriving DecidableEq

/-- One component of `component-guides.json`. -/
structure ComponentJson where
  name : String
  description : String
  keyHooks : List String
deriving DecidableEq

/-- The parsed `component-guides.json`. -/
structure ComponentGuidesJson where
  components : List ComponentJson
deriving DecidableEq

/-- One step of a workflow in `workflows.json`. -/
structure WfStepJson where
  title : String
  description : String
deriving DecidableEq

/-- One workflow of `workflows.json`. -/
structure WorkflowJson where
  name : String
  description : String
  steps : List WfStepJson
deriving DecidableEq

/-- The parsed `workflows.json`. -/
structure WorkflowsJson where
  workflows : List WorkflowJson
deriving DecidableEq

/-- A `{ mainnet, testnet }` base-URL pair. -/
structure BaseUrl where
  mainnet : String
  testnet : String
deriving DecidableEq

/-- One REST endpoint of `api.json` (absent `tags` is the empty list). -/
structure RestEndpointJson where
  method : String
  path : String
  summary : Option String
  description : String
  tags : List String
  auth : Bool
deriving DecidableEq

/-- One WebSocket stream of `api.json`. -/
structure WsStreamJson where
  name : String
  topic : String
  description : String
  auth : Bool
deriving DecidableEq

/-- The parsed `api.json` (`rest` and `websocket` sections flattened). -/
structure ApiJson where
  restBaseUrl : BaseUrl
  restEndpoints : List RestEndpointJson
  wsBaseUrl : BaseUrl
  wsStreams : List WsStreamJson
deriving DecidableEq

/-- One endpoint of `indexer-api.json`. -/
structure IndexerEndpointJson where
  method : String
  path : String
  summary : String
  operationId : String
  description : String
deriving DecidableEq

/-- One category of `indexer-api.json`. -/
structure IndexerCategoryJson where
  name : String
  description : String
  endpoints : List IndexerEndpointJson
deriving DecidableEq

/-- The parsed `indexer-api.json`. -/
structure IndexerApiJson where
  description : String
  version : String
  baseUrl : BaseUrl
  categories : List IndexerCategoryJson
  endpoints : List IndexerEndpointJson
deriving DecidableEq

/-- One pattern of `python-sdk-patterns.json`. -/
structure PyPatternJson where
  name : String
  description : String
  installation : Option String
  usage : String
  exampleCode : Option String
  notes : List String
  related : List String
deriving DecidableEq

/-- One category of `python-sdk-patterns.json`. -/
structure PyCategoryJson where
  name : String
  patterns : List PyPatternJson
deriving DecidableEq

/-- The parsed `python-sdk-patterns.json`. -/
structure PythonPatternsJson where
  categories : List PyCategoryJson
deriving DecidableEq

/-- The data files `getResource` reads at call time.  `contractsRaw` is the
`JSON.stringify(contracts, null, 2)` text of the parsed `contracts.json`;
an `.error` value models the read or parse throwing. -/
structure ResourceStore where
  overviewMd : Except String String
  sdkPatterns : Except String SdkPatternsJson
  componentGuides : Except String ComponentGuidesJson
  contractsRaw : Except String String
  workflows : Except String WorkflowsJson
  api : Except String ApiJson
  indexerApi : Except String IndexerApiJson
  pythonPatterns : Except String PythonPatternsJson

/-- The components the source reads off a parsed WHATWG `URL`. -/
structure UrlParts where
  protocol : String
  host : String
  pathname : String
  searchParams : List (String × String)
deriving DecidableEq

/-- `url.searchParams.get(k)`: first value for the key, or null. -/
def getParam (params : List (String × String)) (k : String) : Option String :=
  (params.find? (fun kv => kv.1 == k)).map (·.2)

/-- The record `parseResourceUri` produces. -/
structure ParsedUri where
  baseUri : String
  searchQuery : Option String
  page : ℕ
  limit : ℕ
deriving DecidableEq

/-- Digit-accumulation loop of the `parseInt` model. -/
def parseDigitsAux (acc : ℕ) : List Char → ℕ
  | [] => acc
  | c :: t => if c.isDigit then parseDigitsAux (acc * 10 + (c.toNat - 48)) t else acc

/-- JS `parseInt(s, 10)` on the nonnegative inputs at hand: leading
whitespace skipped, then a digit prefix; `none` models NaN. -/
def jsParseInt (s : String) : Option ℕ :=
  match s.data.dropWhile Char.isWhitespace with
  | [] => none
  | c :: t => if c.isDigit then some (parseDigitsAux (c.toNat - 48) t) else none

/-- `parseInt(v ?? dfltStr, 10) || dflt`: NaN and 0 both fall back. -/
def jsParseIntOr (v : Option String) (dfltStr : String) (dflt : ℕ) : ℕ :=
  match jsParseInt (v.getD dfltStr) with
  | some n => if n = 0 then dflt else n
  | none => dflt

/-- Shallow embedding of `parseResourceUri` from `src/resources/index.ts`;
`urlParse` abstracts the WHATWG `URL` constructor, `none` modelling it
throwing on an unparsable uri. -/
def parseResourceUri (urlParse : String → Option UrlParts) (uri : String) : ParsedUri :=
  match urlParse uri with
  | some u =>
    ⟨jsTrim (jsToLower (u.protocol ++ "//" ++ u.host ++ u.pathname)),
      getParam u.searchParams "search",
      jsParseIntOr (getParam u.searchParams "page") "1" 1,
      min (jsParseIntOr (getParam u.searchParams "limit") "10" 10) MAX_LIMIT⟩
  | none => ⟨jsTrim (jsToLower uri), none, 1, DEFAULT_LIMIT⟩

/-- JS truthiness of the search query: null and `""` both mean no search. -/
def truthyQuery : Option String → Option String
  | none => none
  | some q => if q == "" then none else some q

/-- Shallow embedding of `formatSearchResults` from `src/resources/index.ts`. -/
def formatSearchResults {α : Type} (result : SearchResult α) (resourceName : String)
    (formatItem : α → String) : String :=
  if result.items.length = 0 then
    "# " ++ resourceName ++
      " Search Results\n\nNo results found. Please provide a search query using ?search=your-query"
  else
    "# " ++ resourceName ++ " Search Results\n\n" ++
      "Found " ++ toString result.total ++ " result" ++
      (if result.total ≠ 1 then "s" else "") ++ " " ++
      "(Page " ++ toString result.page ++ " of " ++ toString result.totalPages ++ ")\n\n" ++
      (result.items.foldl (fun acc item => acc ++ formatItem item ++ "\n") "") ++
      (if result.hasMore then
        "\n---\n\n*Use ?page=" ++ toString (result.page + 1) ++ " to see more results*"
       else "")

/-- JS `s.substring(0, n)`. -/
def substrTo (s : String) (n : ℕ) : String := ⟨s.data.take n⟩

/-- JS `s || fallback` for plain strings (empty string falls back). -/
def jsOrStr (s fallback : String) : String := if s == "" then fallback else s

/-- JS `o || fallback` for optional strings (null and empty fall back). -/
def jsOrOpt (o : Option String) (fallback : String) : String :=
  match o with
  | some s => if s == "" then fallback else s
  | none => fallback

/-- The searchable hook item of the `orderly://sdk/hooks` case. -/
structure HookItem where
  id : String
  name : String
  description : String
  category : String
  usage : Option String
deriving DecidableEq

/-- The searchable component item of the `orderly://sdk/components` case. -/
structure ComponentItem where
  id : String
  name : String
  description : String
  keyHooks : List String
deriving DecidableEq

/-- The searchable workflow item of the `orderly://workflows` case. -/
structure WorkflowItem where
  id : String
  name : String
  description : String
  steps : List WfStepJson
deriving DecidableEq

/-- The searchable endpoint item of the `orderly://api/rest` case. -/
structure RestItem where
  id : String
  name : String
  description : String
  method : String
  path : String
  auth : Bool
deriving DecidableEq

/-- The searchable stream item of the `orderly://api/websocket` case. -/
structure WsItem where
  id : String
  name : String
  description : String
  topic : String
  auth : Bool
deriving DecidableEq

/-- The searchable endpoint item of the `orderly://api/indexer` case. -/
structure IndexerItem where
  id : String
  name : String
  description : String
  method : String
  path : String
  summary : String
  operationId : String
deriving DecidableEq

/-- The searchable pattern item of the `orderly://sdk/python` case. -/
structure PyItem where
  id : String
  name : String
  description : String
  category : String
  installation : Option String
  usage : String
  exampleCode : Option String
  notes : List String
  related : List String
deriving DecidableEq

/-- The `allHooks` accumulation of the hooks case. -/
def allHookItems (p : SdkPatternsJson) : List HookItem :=
  p.categories.flatMap (fun c => c.patterns.map (fun pat =>
    ⟨pat.name, pat.name, pat.description, c.name, pat.usage⟩))

/-- The `allComponents` accumulation of the components case. -/
def allComponentItems (g : ComponentGuidesJson) : List ComponentItem :=
  g.components.map (fun c => ⟨c.name, c.name, c.description, c.keyHooks⟩)

/-- The `allWorkflows` accumulation of the workflows case. -/
def allWorkflowItems (w : WorkflowsJson) : List WorkflowItem :=
  w.workflows.map (fun x => ⟨x.name, x.name, x.description, x.steps⟩)

/-- The `allEndpoints` accumulation of the REST case. -/
def allRestItems (api : ApiJson) : List RestItem :=
  api.restEndpoints.map (fun e =>
    ⟨e.method ++ " " ++ e.path, jsOrOpt e.summary (e.method ++ " " ++ e.path),
      e.description, e.method, e.path, e.auth⟩)

/-- The `allStreams` accumulation of the WebSocket case. -/
def allWsItems (api : ApiJson) : List WsItem :=
  api.wsStreams.map (fun s => ⟨s.topic, s.name, s.description, s.topic, s.auth⟩)

/-- The `allEndpoints` accumulation of the indexer case. -/
def allIndexerItems (x : IndexerApiJson) : List IndexerItem :=
  x.endpoints.map (fun e =>
    ⟨jsOrStr e.operationId (e.method ++ " " ++ e.path),
      jsOrStr e.summary (e.method ++ " " ++ e.path),
      e.description, e.method, e.path, e.summary, e.operationId⟩)

/-- The `allPyPatterns` accumulation of the python case. -/
def allPyItems (x : PythonPatternsJson) : List PyItem :=
  x.categories.flatMap (fun c => c.patterns.map (fun p =>
    ⟨p.name, p.name, p.description, c.name, p.installation, p.usage, p.exampleCode,
      p.notes, p.related⟩))

/-- The per-item renderer of the hooks search results. -/
def formatHookItem (item : HookItem) : String :=
  "## " ++ item.name ++ "\n\n" ++ "**Category:** " ++ item.category ++ "\n\n" ++
    item.description ++ "\n\n" ++
    (match truthyQuery item.usage with
     | some u => "**Usage:** " ++ u ++ "\n\n"
     | none => "") ++
    "---\n"

/-- The per-item renderer of the components search results. -/
def formatComponentItem (item : ComponentItem) : String :=
  "## " ++ item.name ++ "\n\n" ++ item.description ++ "\n\n" ++
    (if item.keyHooks.length > 0 then
      "**Key Hooks:** " ++ String.intercalate ", " item.keyHooks ++ "\n\n"
     else "") ++
    "---\n"

/-- The per-item renderer of the workflows search results. -/
def formatWorkflowItem (item : WorkflowItem) : String :=
  "## " ++ item.name ++ "\n\n" ++ item.description ++ "\n\n" ++
    (if item.steps.length > 0 then
      "**Steps:**\n" ++
        ((item.steps.take 3).foldl (fun acc s => acc ++ "- " ++ s.title ++ "\n") "") ++
        (if item.steps.length > 3 then
          "- ... and " ++ toString (item.steps.length - 3) ++ " more\n"
         else "") ++ "\n"
     else "") ++
    "---\n"

/-- The per-item renderer of the REST search results. -/
def formatRestItem (item : RestItem) : String :=
  "### " ++ item.method ++ " " ++ item.path ++ "\n\n" ++ item.description ++ "\n\n" ++
    (if item.auth then "🔒 Requires authentication\n\n" else "") ++
    "---\n"

/-- The per-item renderer of the WebSocket search results. -/
def formatWsItem (item : WsItem) : String :=
  "### " ++ item.name ++ "\n\n**Topic:** " ++ item.topic ++ "\n\n" ++
    item.description ++ "\n\n" ++
    (if item.auth then "🔒 Requires authentication\n\n" else "") ++
    "---\n"

/-- The per-item renderer of the indexer search results. -/
def formatIndexerItem (item : IndexerItem) : String :=
  "### " ++ item.method ++ " " ++ item.path ++ "\n\n**" ++ item.summary ++ "**\n\n" ++
    (if item.description == "" then "" else item.description ++ "\n\n") ++
    "---\n"

/-- The per-item renderer of the python search results. -/
def formatPyItem (item : PyItem) : String :=
  "### " ++ item.name ++ " (" ++ item.category ++ ")\n\n" ++ item.description ++ "\n\n" ++
    (match truthyQuery item.installation with
     | some i => "**Install:** `" ++ i ++ "`\n\n"
     | none => "") ++
    "**Usage:** " ++ item.usage ++ "\n\n" ++
    (match truthyQuery item.exampleCode with
     | some e => "**Example:**\n```python\n" ++ e ++ "\n```\n\n"
     | none => "") ++
    (if item.notes.length > 0 then
      "**Notes:**\n" ++ String.intercalate "\n" (item.notes.map (fun n => "- " ++ n)) ++ "\n\n"
     else "") ++
    (if item.related.length > 0 then
      "**Related:** " ++ String.intercalate ", " item.related ++ "\n\n"
     else "") ++
    "---\n"

/-- The no-search overview of `orderly://sdk/hooks`. -/
def hooksOverviewText (patterns : SdkPatternsJson) : String :=
  "# SDK Hooks Reference\n\n" ++
    "This resource contains " ++ toString patterns.totalHooks ++
    " hooks organized into " ++ toString patterns.totalCategories ++ " categories.\n\n" ++
    "## Available Categories\n\n" ++
    ((patterns.categories.take 10).foldl (fun acc c =>
      acc ++ "- **" ++ c.name ++ "**: " ++ toString c.patterns.length ++ " hooks\n") "") ++
    (if patterns.categories.length > 10 then
      "- ... and " ++ toString (patterns.categories.length - 10) ++ " more categories\n"
     else "") ++
    "\n## How to Search\n\n" ++
    "To search for specific hooks, add a `?search=` query parameter:\n\n" ++
    "```\n" ++
    "orderly://sdk/hooks?search=useOrderEntry\n" ++
    "orderly://sdk/hooks?search=position\n" ++
    "orderly://sdk/hooks?search=wallet%20connection\n" ++
    "```\n\n" ++
    "**Search supports:**\n" ++
    "- Hook names (e.g., `useOrderEntry`)\n" ++
    "- Partial matches (e.g., `order` matches `useOrderEntry`)\n" ++
    "- Categories (e.g., `General`, `Trading`)\n" ++
    "- Descriptions and usage patterns\n\n" ++
    "**Pagination:**\n" ++
    "- Use `?page=2` to see more results\n" ++
    "- Use `?limit=5` to change results per page (max 10)\n"

/-- The no-search overview of `orderly://sdk/components`. -/
def componentsOverviewText (guides : ComponentGuidesJson) : String :=
  "# Component Building Guides\n\n" ++
    "This resource contains " ++ toString guides.components.length ++
    " UI components with implementation examples.\n\n" ++
    "## Sample Components\n\n" ++
    ((guides.components.take 15).foldl (fun acc c =>
      acc ++ "- **" ++ c.name ++ "**: " ++ substrTo c.description 80 ++ "...\n") "") ++
    (if guides.components.length > 15 then
      "- ... and " ++ toString (guides.components.length - 15) ++ " more components\n"
     else "") ++
    "\n## How to Search\n\n" ++
    "To search for specific components, add a `?search=` query parameter:\n\n" ++
    "```\n" ++
    "orderly://sdk/components?search=Checkbox\n" ++
    "orderly://sdk/components?search=order%20entry\n" ++
    "orderly://sdk/components?search=button\n" ++
    "```\n\n" ++
    "**Search supports:**\n" ++
    "- Component names (e.g., `OrderEntry`)\n" ++
    "- Partial matches (e.g., `check` matches `Checkbox`)\n" ++
    "- Related hooks (e.g., `useOrderEntry`)\n" ++
    "- Descriptions\n\n" ++
    "**Pagination:**\n" ++
    "- Use `?page=2` to see more results\n" ++
    "- Use `?limit=5` to change results per page (max 10)\n"

/-- The no-search overview of `orderly://workflows`. -/
def workflowsOverviewText (w : WorkflowsJson) : String :=
  "# Common Workflows\n\n" ++
    "Step-by-step guides for " ++ toString w.workflows.length ++
    " common Orderly development tasks.\n\n" ++
    "## Available Workflows\n\n" ++
    ((w.workflows.take 10).foldl (fun acc x =>
      acc ++ "### " ++ x.name ++ "\n" ++ substrTo x.description 100 ++ "...\n" ++
        "*" ++ toString x.steps.length ++ " steps*\n\n") "") ++
    (if w.workflows.length > 10 then
      "*... and " ++ toString (w.workflows.length - 10) ++ " more workflows*\n\n"
     else "") ++
    "## How to Search\n\n" ++
    "To search for specific workflows, add a `?search=` query parameter:\n\n" ++
    "```\n" ++
    "orderly://workflows?search=wallet\n" ++
    "orderly://workflows?search=fee%20configuration\n" ++
    "orderly://workflows?search=API%20credentials\n" ++
    "```\n\n" ++
    "**Search supports:**\n" ++
    "- Workflow names (e.g., `wallet connection`)\n" ++
    "- Step titles and descriptions\n" ++
    "- Keywords in descriptions\n\n" ++
    "**Pagination:**\n" ++
    "- Use `?page=2` to see more results\n" ++
    "- Use `?limit=5` to change results per page (max 10)\n"

/-- One insertion-ordered counter increment of the tag `Map`. -/
def bumpCount : List (String × ℕ) → String → List (String × ℕ)
  | [], tag => [(tag, 1)]
  | (k, v) :: rest, tag =>
    if k == tag then (k, v + 1) :: rest else (k, v) :: bumpCount rest tag

/-- The `endpointsByTag` map of the REST overview, in insertion order. -/
def tagCounts (endpoints : List RestEndpointJson) : List (String × ℕ) :=
  endpoints.foldl (fun acc e =>
    bumpCount acc (match e.tags with
      | [] => "general"
      | t :: _ => jsOrStr t "general")) []

/-- The no-search overview of `orderly://api/rest`. -/
def restOverviewText (api : ApiJson) : String :=
  "# REST API Reference\n\n" ++
    "Complete REST API documentation with " ++ toString api.restEndpoints.length ++
    " endpoints.\n\n" ++
    "**Base URLs:**\n" ++
    "- Mainnet: " ++ api.restBaseUrl.mainnet ++ "\n" ++
    "- Testnet: " ++ api.restBaseUrl.testnet ++ "\n\n" ++
    "## Endpoint Categories\n\n" ++
    ((tagCounts api.restEndpoints).foldl (fun acc kv =>
      acc ++ "- **" ++ kv.1 ++ "**: " ++ toString kv.2 ++ " endpoints\n") "") ++
    "\n## Sample Endpoints\n\n" ++
    ((api.restEndpoints.take 10).foldl (fun acc e =>
      acc ++ "- " ++ e.method ++ " " ++ e.path ++ "\n") "") ++
    (if api.restEndpoints.length > 10 then
      "- ... and " ++ toString (api.restEndpoints.length - 10) ++ " more endpoints\n"
     else "") ++
    "\n## How to Search\n\n" ++
    "To search for specific endpoints, add a `?search=` query parameter:\n\n" ++
    "```\n" ++
    "orderly://api/rest?search=order\n" ++
    "orderly://api/rest?search=POST%20position\n" ++
    "orderly://api/rest?search=balance\n" ++
    "```\n\n" ++
    "**Search supports:**\n" ++
    "- HTTP methods (e.g., `GET`, `POST`)\n" ++
    "- Endpoint paths (e.g., `/v1/order`)\n" ++
    "- Descriptions and summaries\n\n" ++
    "**Pagination:**\n" ++
    "- Use `?page=2` to see more results\n" ++
    "- Use `?limit=5` to change results per page (max 10)\n"

/-- The no-search overview of `orderly://api/websocket`. -/
def wsOverviewText (api : ApiJson) : String :=
  "# WebSocket API Reference\n\n" ++
    "Real-time WebSocket streams documentation with " ++
    toString api.wsStreams.length ++ " available streams.\n\n" ++
    "**Base URLs:**\n" ++
    "- Mainnet: " ++ api.wsBaseUrl.mainnet ++ "\n" ++
    "- Testnet: " ++ api.wsBaseUrl.testnet ++ "\n\n" ++
    "## Available Streams\n\n" ++
    ((api.wsStreams.take 15).foldl (fun acc s =>
      acc ++ "- " ++ (if s.auth then "🔒 " else "") ++ "**" ++ s.name ++ "** (" ++
        s.topic ++ ")\n") "") ++
    (if api.wsStreams.length > 15 then
      "- ... and " ++ toString (api.wsStreams.length - 15) ++ " more streams\n"
     else "") ++
    "\n## How to Search\n\n" ++
    "To search for specific streams, add a `?search=` query parameter:\n\n" ++
    "```\n" ++
    "orderly://api/websocket?search=orderbook\n" ++
    "orderly://api/websocket?search=position%20stream\n" ++
    "orderly://api/websocket?search=ticker\n" ++
    "```\n\n" ++
    "**Search supports:**\n" ++
    "- Stream names (e.g., `orderbook`, `ticker`)\n" ++
    "- Topics (e.g., `@orderbook`, `@position`)\n" ++
    "- Descriptions\n\n" ++
    "**Pagination:**\n" ++
    "- Use `?page=2` to see more results\n" ++
    "- Use `?limit=5` to change results per page (max 10)"

/-- The no-search overview of `orderly://api/indexer`. -/
def indexerOverviewText (x : IndexerApiJson) : String :=
  "# Indexer API Reference\n\n" ++
    x.description ++ "\n\n" ++
    "**Version:** " ++ x.version ++ "\n\n" ++
    "**Base URLs:**\n" ++
    "- Mainnet: " ++ x.baseUrl.mainnet ++ "\n" ++
    "- Testnet: " ++ x.baseUrl.testnet ++ "\n\n" ++
    "## Categories\n\n" ++
    (x.categories.foldl (fun acc c =>
      acc ++ "### " ++ c.name ++ "\n\n" ++ c.description ++ "\n\n" ++
        "**" ++ toString c.endpoints.length ++ " endpoints:**\n" ++
        ((c.endpoints.take 5).foldl (fun acc2 e =>
          acc2 ++ "- " ++ e.method ++ " " ++ e.path ++ " - " ++ e.summary ++ "\n") "") ++
        (if c.endpoints.length > 5 then
          "- ... and " ++ toString (c.endpoints.length - 5) ++ " more\n"
         else "") ++ "\n") "") ++
    "## How to Search\n\n" ++
    "To search for specific endpoints, add a `?search=` query parameter:\n\n" ++
    "```\n" ++
    "orderly://api/indexer?search=daily_volume\n" ++
    "orderly://api/indexer?search=events\n" ++
    "orderly://api/indexer?search=ranking\n" ++
    "```\n\n" ++
    "**Search supports:**\n" ++
    "- Endpoint paths (e.g., `/daily_volume`, `/events_v2`)\n" ++
    "- Operation IDs (e.g., `daily_volume`, `list_events`)\n" ++
    "- Summaries and descriptions\n\n" ++
    "**Pagination:**\n" ++
    "- Use `?page=2` to see more results\n" ++
    "- Use `?limit=5` to change results per page (max 10)"

/-- The no-search overview of `orderly://sdk/python`. -/
def pythonOverviewText (x : PythonPatternsJson) : String :=
  "# Orderly Python SDK (agent-trading-sdk)\n\n" ++
    "The easiest way for AI agents to trade crypto perpetuals on Orderly Network.\n\n" ++
    "## Installation\n```bash\npip install agent-trading-sdk\n```\n\n" ++
    "## Quick Start\n```python\nfrom orderly_agent import Arthur\n" ++
    "client = Arthur.from_credentials_file(\"credentials.json\")\n" ++
    "client.buy(\"ETH\", usd=100)  # Done.\n```\n\n" ++
    "## Categories\n\n" ++
    (x.categories.foldl (fun acc c =>
      acc ++ "### " ++ c.name ++ "\n" ++
        (c.patterns.foldl (fun acc2 p =>
          acc2 ++ "- **" ++ p.name ++ "**: " ++ p.description ++ "\n") "") ++ "\n") "") ++
    "## Search\n```\norderly://sdk/python?search=buy\norderly://sdk/python?search=ai_agent\norderly://sdk/python?search=positions\n```\n" ++
    "\n**Links:** [PyPI](https://pypi.org/project/agent-trading-sdk/) | [GitHub](https://github.com/arthur-orderly/agent-trading-sdk) | [Arthur DEX](https://arthurdex.com)\n"

/-- The per-domain `createFuseSearch(items, keys)` indexes followed by
`fuse.search(query)`: each field maps the indexed items and the query to the
ranked result list the external fuse.js engine would return. -/
structure FuseEngine where
  hooks : List HookItem → String → List (Scored HookItem)
  components : List ComponentItem → String → List (Scored ComponentItem)
  workflows : List WorkflowItem → String → List (Scored WorkflowItem)
  rest : List RestItem → String → List (Scored RestItem)
  ws : List WsItem → String → List (Scored WsItem)
  indexer : List IndexerItem → String → List (Scored IndexerItem)
  python : List PyItem → String → List (Scored PyItem)

/-- The nine `case` labels of the `switch (baseUri)` in `getResource`. -/
def knownResourceUris : List String :=
  ["orderly://overview", "orderly://sdk/hooks", "orderly://sdk/components",
    "orderly://contracts", "orderly://workflows", "orderly://api/rest",
    "orderly://api/websocket", "orderly://api/indexer", "orderly://sdk/python"]

/-- The body of `getResource`'s try block: each `return {contents:[item]}`
is `.ok item`, each exception a read would raise is `.error e`. -/
def tryGetResource (store : ResourceStore) (engine : FuseEngine)
    (p : ParsedUri) (uri : String) : Except String ResourceContent :=
  if p.baseUri == "orderly://overview" then
    match truthyQuery p.searchQuery with
    | some _ => .ok ⟨uri, "text/markdown",
        "Search is not supported for overview. Access the full resource without search parameter."⟩
    | none =>
      match store.overviewMd with
      | .error e => .error e
      | .ok content => .ok ⟨uri, "text/markdown", content⟩
  else if p.baseUri == "orderly://sdk/hooks" then
    match store.sdkPatterns with
    | .error e => .error e
    | .ok patterns =>
      match truthyQuery p.searchQuery with
      | none => .ok ⟨uri, "text/markdown", hooksOverviewText patterns⟩
      | some q => .ok ⟨uri, "text/markdown",
          formatSearchResults
            (searchWithPagination (engine.hooks (allHookItems patterns) q) q p.page p.limit)
            "SDK Hooks" formatHookItem⟩
  else if p.baseUri == "orderly://sdk/components" then
    match store.componentGuides with
    | .error e => .error e
    | .ok guides =>
      match truthyQuery p.searchQuery with
      | none => .ok ⟨uri, "text/markdown", componentsOverviewText guides⟩
      | some q => .ok ⟨uri, "text/markdown",
          formatSearchResults
            (searchWithPagination (engine.components (allComponentItems guides) q)
              q p.page p.limit)
            "Component Guides" formatComponentItem⟩
  else if p.baseUri == "orderly://contracts" then
    match store.contractsRaw with
    | .error e => .error e
    | .ok txt => .ok ⟨uri, "application/json", txt⟩
  else if p.baseUri == "orderly://workflows" then
    match store.workflows with
    | .error e => .error e
    | .ok w =>
      match truthyQuery p.searchQuery with
      | none => .ok ⟨uri, "text/markdown", workflowsOverviewText w⟩
      | some q => .ok ⟨uri, "text/markdown",
          formatSearchResults
            (searchWithPagination (engine.workflows (allWorkflowItems w) q) q p.page p.limit)
            "Workflows" formatWorkflowItem⟩
  else if p.baseUri == "orderly://api/rest" then
    match store.api with
    | .error e => .error e
    | .ok api =>
      match truthyQuery p.searchQuery with
      | none => .ok ⟨uri, "text/markdown", restOverviewText api⟩
      | some q => .ok ⟨uri, "text/markdown",
          formatSearchResults
            (searchWithPagination (engine.rest (allRestItems api) q) q p.page p.limit)
            "REST API Endpoints" formatRestItem⟩
  else if p.baseUri == "orderly://api/websocket" then
    match store.api with
    | .error e => .error e
    | .ok api =>
      match truthyQuery p.searchQuery with
      | none => .ok ⟨uri, "text/markdown", wsOverviewText api⟩
      | some q => .ok ⟨uri, "text/markdown",
          formatSearchResults
            (searchWithPagination (engine.ws (allWsItems api) q) q p.page p.limit)
            "WebSocket Streams" formatWsItem⟩
  else if p.baseUri == "orderly://api/indexer" then
    match store.indexerApi with
    | .error e => .error e
    | .ok x =>
      match truthyQuery p.searchQuery with
      | none => .ok ⟨uri, "text/markdown", indexerOverviewText x⟩
      | some q => .ok ⟨uri, "text/markdown",
          formatSearchResults
            (searchWithPagination (engine.indexer (allIndexerItems x) q) q p.page p.limit)
            "Indexer API Endpoints" formatIndexerItem⟩
  else if p.baseUri == "orderly://sdk/python" then
    match store.pythonPatterns with
    | .error e => .error e
    | .ok x =>
      match truthyQuery p.searchQuery with
      | none => .ok ⟨uri, "text/markdown", pythonOverviewText x⟩
      | some q => .ok ⟨uri, "text/markdown",
          formatSearchResults
            (searchWithPagination (engine.python (allPyItems x) q) q p.page p.limit)
            "Python SDK Patterns" formatPyItem⟩
  else
    .ok ⟨uri, "text/plain", "Resource not found: " ++ uri⟩

/-- Shallow embedding of `getResource` from `src/resources/index.ts`: the
try body wrapped by the catch that renders any thrown error as an
`Error loading resource` text response. -/
def getResource (store : ResourceStore) (engine : FuseEngine)
    (urlParse : String → Option UrlParts) (uri : String) : ResourceResult :=
  match tryGetResource store engine (parseResourceUri urlParse uri) uri with
  | .ok c => ⟨[c]⟩
  | .error e => ⟨[⟨uri, "text/plain", "Error loading resource: " ++ e⟩]⟩

/-- C10: `getResource` never throws — for every store, engine, URL parser and
input URI it returns a one-element contents array; an URI whose parsed base is
none of the nine known resources yields the `Resource not found` text; any
error raised inside the try body — in particular a missing or unparsable
`workflows.json` read at call time — is caught and returned as the
`Error loading resource` text. -/
theorem getResource_total_and_caught :
    (∀ (store : ResourceStore) (engine : FuseEngine)
        (urlParse : String → Option UrlParts) (uri : String),
      ∃ c, getResource store engine urlParse uri = ⟨[c]⟩)
    ∧ (∀ (store : ResourceStore) (engine : FuseEngine)
          (urlParse : String → Option UrlParts) (uri : String),
        (parseResourceUri urlParse uri).baseUri ∉ knownResourceUris →
        getResource store engine urlParse uri
          = ⟨[⟨uri, "text/plain", "Resource not found: " ++ uri⟩]⟩)
    ∧ (∀ (store : ResourceStore) (engine : FuseEngine)
          (urlParse : String → Option UrlParts) (uri e : String),
        tryGetResource store engine (parseResourceUri urlParse uri) uri = .error e →
        getResource store engine urlParse uri
          = ⟨[⟨uri, "text/plain", "Error loading resource: " ++ e⟩]⟩)
    ∧ (∀ (store : ResourceStore) (engine : FuseEngine)
          (urlParse : String → Option UrlParts) (uri e : String),
        (parseResourceUri urlParse uri).baseUri = "orderly://workflows" →
        store.workflows = .error e →
        getResource store engine urlParse uri
          = ⟨[⟨uri, "text/plain", "Error loading resource: " ++ e⟩]⟩) := by
  refine ⟨?_, ?_, ?_, ?_⟩
  · intro store engine urlParse uri
    cases h : tryGetResource store engine (parseResourceUri urlParse uri) uri with
    | ok c => exact ⟨c, by simp [getResource, h]⟩
    | error e => exact ⟨⟨uri, "text/plain", "Error loading resource: " ++ e⟩,
        by simp [getResource, h]⟩
  · intro store engine urlParse uri h
    simp only [knownResourceUris, List.mem_cons, List.mem_singleton, not_or,
      List.not_mem_nil, or_false] at h
    obtain ⟨h1, h2, h3, h4, h5, h6, h7, h8, h9⟩ := h
    simp [getResource, tryGetResource, h1, h2, h3, h4, h5, h6, h7, h8, h9]
  · intro store engine urlParse uri e h
    simp [getResource, h]
  · intro store engine urlParse uri e hb hw
    have htry : tryGetResource store engine (parseResourceUri urlParse uri) uri
        = .error e := by
      simp [tryGetResource, hb, hw]
    simp [getResource, htry]

/-- A store whose `workflows.json` read fails; the other reads succeed. -/
def brokenStore : ResourceStore :=
  ⟨.ok "ov", .ok ⟨0, 0, []⟩, .ok ⟨[]⟩, .ok "rawjson",
    .error "ENOENT: workflows.json missing",
    .ok ⟨⟨"m", "t"⟩, [], ⟨"m", "t"⟩, []⟩,
    .ok ⟨"d", "v", ⟨"m", "t"⟩, [], []⟩, .ok ⟨[]⟩⟩

/-- A search that matches nothing, whatever the indexed items and query. -/
def noMatches {α : Type} : List α → String → List (Scored α) := fun _ _ => []

/-- A fuse engine returning no matches, for the concrete runs below. -/
def emptyEngine : FuseEngine :=
  ⟨noMatches, noMatches, noMatches, noMatches, noMatches, noMatches, noMatches⟩

/-- C10 witness: an unrecognized URI gets the `Resource not found` text, and
with `workflows.json` missing the workflows URI gets the
`Error loading resource` text. -/
theorem getResource_total_and_caught_witness :
    getResource brokenStore emptyEngine (fun _ => none) "orderly://nope"
      = ⟨[⟨"orderly://nope", "text/plain", "Resource not found: orderly://nope"⟩]⟩
    ∧ getResource brokenStore emptyEngine (fun _ => none) "orderly://workflows"
        = ⟨[⟨"orderly://workflows", "text/plain",
            "Error loading resource: ENOENT: workflows.json missing"⟩]⟩ :=
  ⟨getResource_total_and_caught.2.1 brokenStore emptyEngine (fun _ => none)
      "orderly://nope" (by decide),
    getResource_total_and_caught.2.2.2 brokenStore emptyEngine (fun _ => none)
      "orderly://workflows" "ENOENT: workflows.json missing" (by decide) rfl⟩

end OrderlyMcp
